import Mathlib

/-!
Verification of the job-orchestration core of the viral-content-tracker
repository: a shallow embedding of the scrape-job state machine, the
ingestion deduplicator, the transcription state machine, the search
wrappers and the best-effort spreadsheet mirror (app/routers/jobs.py,
app/services/apify.py, app/services/sheets.py, app/models.py), together
with theorems settling the specification claims about them.

Modelling conventions:
 -  the persistent store is modelled as an explicit record of lists
    (DBState) threaded through every operation; each HTTP handler and
    each background task is one serialized, atomic operation;
 -  wall-clock timestamp columns (created_at, started_at, completed_at,
    scraped_at) are not modelled: no claim mentions them;
 -  external collaborators (the Apify actors, the spreadsheet client,
    the transcript backend) are oracles passed in as parameters;
 -  Python exceptions become Except values; a try/except block becomes a
    match on the Except result of the guarded code.
-/

/-- Platform tags, from PlatformEnum in app/models.py. -/
inductive PlatformEnum where
  | tiktok
  | instagram
  | youtube
deriving DecidableEq, Repr

/-- Scrape-job lifecycle states, from JobStatusEnum in app/models.py. -/
inductive JobStatusEnum where
  | pending
  | running
  | completed
  | failed
deriving DecidableEq, Repr

/-- A row of the users table (app/models.py, class User); only the columns
the job-orchestration core reads are modelled. -/
structure User where
  id : Nat
  google_sheet_id : Option String
deriving DecidableEq, Repr

/-- A row of the keywords table (app/models.py, class Keyword). -/
structure Keyword where
  id : Nat
  user_id : Nat
  keyword : String
  platform : PlatformEnum
  is_active : Bool
  results_per_run : Nat
deriving DecidableEq, Repr

/-- A row of the videos table (app/models.py, class Video). video_url is
NOT NULL and globally unique by design; transcription is nullable. -/
structure Video where
  id : Nat
  user_id : Nat
  keyword_id : Nat
  platform : PlatformEnum
  video_url : String
  video_id : Option String
  author_username : Option String
  author_name : Option String
  description : Option String
  likes : Nat
  comments : Nat
  shares : Nat
  views : Nat
  transcription : Option String
  transcription_status : String
  posted_at : Option Nat
deriving DecidableEq, Repr

/-- A row of the scrape_jobs table (app/models.py, class ScrapeJob). -/
structure ScrapeJob where
  id : Nat
  user_id : Nat
  status : JobStatusEnum
  platform : Option PlatformEnum
  keywords_processed : Nat
  videos_found : Nat
  videos_transcribed : Nat
  error_message : Option String
deriving DecidableEq, Repr

/-- A row of the user_settings table (app/models.py, class UserSettings);
only the columns run_scrape_job reads are modelled. -/
structure UserSettings where
  user_id : Nat
  min_likes : Nat
  min_views : Nat
  date_filter : String
deriving DecidableEq, Repr

/-- A raw search result dictionary as built by scrape_tiktok /
scrape_instagram in app/services/apify.py. The video_url key can carry
Python None (Instagram items whose url and videoUrl are both absent),
hence Option String. posted_at is an epoch number. -/
structure Candidate where
  platform : PlatformEnum
  video_url : Option String
  video_id : Option String
  author_username : Option String
  author_name : Option String
  description : Option String
  likes : Nat
  comments : Nat
  shares : Nat
  views : Nat
  posted_at : Option Nat
deriving DecidableEq, Repr

/-- The persistent store. next_video_id / next_job_id model the
autoincrement primary keys. -/
structure DBState where
  users : List User
  keywords : List Keyword
  videos : List Video
  jobs : List ScrapeJob
  settings : List UserSettings
  next_video_id : Nat
  next_job_id : Nat
deriving DecidableEq, Repr

/-! ## app/services/apify.py -/

/-- The run_input dictionary scrape_tiktok sends to the TikTok actor. -/
structure TikTokRunInput where
  searchQueries : List String
  resultsPerPage : Nat
  searchSection : String
  maxProfilesPerQuery : Nat
  shouldDownloadVideos : Bool
  shouldDownloadCovers : Bool
deriving DecidableEq, Repr

/-- One item of the TikTok actor dataset, with the keys scrape_tiktok
reads. The nested authorMeta dict is flattened into two fields. A
missing createTime is 0 (the Python code treats 0 and absent alike,
both are falsy). -/
structure TikTokItem where
  webVideoUrl : Option String
  id : Option String
  authorMeta_name : Option String
  authorMeta_nickName : Option String
  text : Option String
  diggCount : Nat
  commentCount : Nat
  shareCount : Nat
  playCount : Nat
  createTime : Nat
deriving DecidableEq, Repr

/-- The run_input dictionary scrape_instagram sends to the Instagram
actor. -/
structure InstagramRunInput where
  hashtags : List String
  resultsLimit : Nat
  resultsType : String
  searchType : String
deriving DecidableEq, Repr

/-- One item of the Instagram actor dataset, with the keys
scrape_instagram reads. itemType is the item's type key (type is a
reserved word in Lean). timestamp is the already-parsed ISO timestamp
(the model assumes the provider sends well-formed timestamps). -/
structure InstagramItem where
  itemType : Option String
  url : Option String
  videoUrl : Option String
  id : Option String
  ownerUsername : Option String
  ownerFullName : Option String
  caption : Option String
  likesCount : Nat
  commentsCount : Nat
  videoViewCount : Nat
  timestamp : Option Nat
deriving DecidableEq, Repr

/-- The external Apify actors: ApifyService.client.actor(...).call plus
dataset iteration, one fallible call per platform. -/
structure ScrapeOracle where
  tiktok_actor : TikTokRunInput → Except String (List TikTokItem)
  instagram_actor : InstagramRunInput → Except String (List InstagramItem)

/-- Python "a or b" for an optional string a and a string fallback b:
the fallback is used when a is None or the empty string (both falsy). -/
def py_or_str (a : Option String) (b : String) : String :=
  match a with
  | some s => if s == "" then b else s
  | none => b

/-- Python "a or b" where both operands are optional strings. -/
def py_or_opt (a b : Option String) : Option String :=
  match a with
  | some s => if s == "" then b else some s
  | none => b

/-- Python str(x) of an optional string inside an f-string: None prints
as the literal text None. -/
def py_str_opt (a : Option String) : String :=
  match a with
  | some s => s
  | none => "None"

/-- Stable insertion (descending by likes) used to model Python
list.sort(key=likes, reverse=True): an element is placed after every
already-placed element whose likes are greater or equal, so equal-likes
elements keep their original relative order, as Python's stable sort
does. Implemented structurally so that concrete runs reduce in the
kernel (List.mergeSort does not). -/
def insert_by_likes_desc (a : Candidate) : List Candidate → List Candidate
  | [] => [a]
  | b :: bs => if b.likes < a.likes then a :: b :: bs else b :: insert_by_likes_desc a bs

/-- Stable descending-by-likes sort, modelling videos.sort(key=lambda x:
x likes, reverse=True) in apify.py. -/
def sort_by_likes_desc (l : List Candidate) : List Candidate :=
  l.foldl (fun acc a => insert_by_likes_desc a acc) []

/-- The run_input built by scrape_tiktok (apify.py lines 48-55). It does
not mention the date_filter argument. -/
def tiktok_run_input (keyword : String) (max_results : Nat) : TikTokRunInput :=
  { searchQueries := [keyword]
    resultsPerPage := max_results * 2
    searchSection := "video"
    maxProfilesPerQuery := 0
    shouldDownloadVideos := false
    shouldDownloadCovers := false }

/-- The video_data dictionary scrape_tiktok builds per kept item
(apify.py lines 67-79). -/
def tiktok_item_to_candidate (item : TikTokItem) : Candidate :=
  { platform := .tiktok
    video_url := some (py_or_str item.webVideoUrl
      ("https://www.tiktok.com/@" ++ py_str_opt item.authorMeta_name ++
       "/video/" ++ py_str_opt item.id))
    video_id := item.id
    author_username := item.authorMeta_name
    author_name := item.authorMeta_nickName
    description := item.text
    likes := item.diggCount
    comments := item.commentCount
    shares := item.shareCount
    views := item.playCount
    posted_at := if item.createTime != 0 then some item.createTime else none }

/-- ApifyService.scrape_tiktok (apify.py lines 35-91). The whole body is
a try/except that re-raises, so an actor failure propagates as an error.
The date_filter argument is accepted and never used, as in the source. -/
def scrape_tiktok (o : ScrapeOracle) (keyword : String)
    (max_results min_likes : Nat) (date_filter : String) :
    Except String (List Candidate) :=
  match o.tiktok_actor (tiktok_run_input keyword max_results) with
  | .error e => .error e
  | .ok items =>
    let videos := (items.filter (fun item => decide (min_likes ≤ item.diggCount))).map
      tiktok_item_to_candidate
    .ok ((sort_by_likes_desc videos).take max_results)

/-- The run_input built by scrape_instagram (apify.py lines 109-114),
with the keyword lowered and stripped of spaces into a hashtag. -/
def instagram_run_input (keyword : String) (max_results : Nat) : InstagramRunInput :=
  { hashtags := [(keyword.replace " " "").toLower]
    resultsLimit := max_results * 2
    resultsType := "posts"
    searchType := "hashtag" }

/-- The video_data dictionary scrape_instagram builds per kept item
(apify.py lines 130-142). Instagram exposes no share count. -/
def instagram_item_to_candidate (item : InstagramItem) : Candidate :=
  { platform := .instagram
    video_url := py_or_opt item.url item.videoUrl
    video_id := item.id
    author_username := item.ownerUsername
    author_name := item.ownerFullName
    description := item.caption
    likes := item.likesCount
    comments := item.commentsCount
    shares := 0
    views := item.videoViewCount
    posted_at := item.timestamp }

/-- ApifyService.scrape_instagram (apify.py lines 93-154). An item is
skipped when its type key differs from Video and it has no videoUrl;
kept items are filtered by the minimum-likes floor. date_filter is
accepted and never used, as in the source. -/
def scrape_instagram (o : ScrapeOracle) (keyword : String)
    (max_results min_likes : Nat) (date_filter : String) :
    Except String (List Candidate) :=
  match o.instagram_actor (instagram_run_input keyword max_results) with
  | .error e => .error e
  | .ok items =>
    let kept := items.filter (fun item =>
      !(item.itemType != some "Video" && item.videoUrl == none) &&
      decide (min_likes ≤ item.likesCount))
    let videos := kept.map instagram_item_to_candidate
    .ok ((sort_by_likes_desc videos).take max_results)

/-- ApifyService.scrape_by_platform (apify.py lines 156-170): dispatch on
the platform tag; any platform other than tiktok or instagram (that is,
youtube) raises ValueError("Unsupported platform: ..."). -/
def scrape_by_platform (o : ScrapeOracle) (platform : PlatformEnum)
    (keyword : String) (max_results min_likes : Nat) (date_filter : String) :
    Except String (List Candidate) :=
  match platform with
  | .tiktok => scrape_tiktok o keyword max_results min_likes date_filter
  | .instagram => scrape_instagram o keyword max_results min_likes date_filter
  | .youtube => .error "Unsupported platform: youtube"

/-! ## app/services/sheets.py -/

/-- A spreadsheet cell: gspread rows mix strings, numbers and Python
None. -/
inductive Cell where
  | str : String → Cell
  | num : Nat → Cell
  | null : Cell
deriving DecidableEq, Repr

/-- An optional-string dictionary value placed into a row: Python None
becomes an empty cell. -/
def opt_cell (o : Option String) : Cell :=
  match o with
  | some s => Cell.str s
  | none => Cell.null

/-- The external gspread client (GoogleSheetsService.client): open a
spreadsheet by key, locate a worksheet and append rows / find a cell /
update a range, each collapsed into one fallible call. -/
structure MirrorOracle where
  append_rows : String → String → List (List Cell) → Except String Unit
  find_cell : String → String → String → Except String (Option Nat)
  update_range : String → String → String → List (List Cell) → Except String Unit

/-- platform.value.capitalize() as used by add_videos_batch and
update_transcription_in_sheet to pick the worksheet tab. -/
def worksheet_tab (p : PlatformEnum) : String :=
  match p with
  | .tiktok => "Tiktok"
  | .instagram => "Instagram"
  | .youtube => "Youtube"

/-- The description truncation of add_videos_batch (sheets.py lines
197-199): longer than 200 characters is cut and suffixed with an
ellipsis. -/
def truncate_description (d : String) : String :=
  if 200 < d.length then (d.take 200) ++ "..." else d

/-- One row built by add_videos_batch (sheets.py lines 201-213): the
scrape timestamp, the keyword, then the candidate fields, an empty
transcription column and a pending status column. The video_url and
author_username keys are always present in the candidate dictionary, so
their Python None values pass through into the row. -/
def candidate_sheet_row (now keyword : String) (c : Candidate) : List Cell :=
  [ Cell.str now, Cell.str keyword, opt_cell c.video_url, opt_cell c.author_username,
    Cell.str (truncate_description (match c.description with | some s => s | none => "")),
    Cell.num c.likes, Cell.num c.comments, Cell.num c.shares, Cell.num c.views,
    Cell.str "", Cell.str "pending" ]

/-- GoogleSheetsService.add_videos_batch (sheets.py lines 179-225): build
the rows, append them to the platform worksheet, and return their count;
the whole body is wrapped in try/except, so any client failure is
swallowed and 0 is returned instead. now is the formatted utcnow
string. -/
def add_videos_batch (m : MirrorOracle) (sheet_id : String)
    (videos : List Candidate) (platform : PlatformEnum) (keyword : String)
    (now : String) : Nat :=
  let rows := videos.map (candidate_sheet_row now keyword)
  match (if rows.isEmpty then Except.ok () else
      m.append_rows sheet_id (worksheet_tab platform) rows) with
  | .ok _ => rows.length
  | .error _ => 0

/-- GoogleSheetsService.update_transcription_in_sheet (sheets.py lines
148-177): find the row holding the video URL; if present overwrite the
transcription column J and the status column K; return False on a
missing row and swallow any client failure into False. The status
argument defaults to completed, as in the source. -/
def update_transcription_in_sheet (m : MirrorOracle) (sheet_id video_url : String)
    (platform : PlatformEnum) (transcription_text : String)
    (status : String := "completed") : Bool :=
  match m.find_cell sheet_id (worksheet_tab platform) video_url with
  | .error _ => false
  | .ok none => false
  | .ok (some row_num) =>
    match m.update_range sheet_id (worksheet_tab platform)
        ("J" ++ toString row_num) [[Cell.str transcription_text]] with
    | .error _ => false
    | .ok _ =>
      match m.update_range sheet_id (worksheet_tab platform)
          ("K" ++ toString row_num) [[Cell.str status]] with
      | .error _ => false
      | .ok _ => true

/-! ## app/routers/jobs.py: store lookups and updates -/

/-- db.query(ScrapeJob).filter(ScrapeJob.id == job_id).first() -/
def find_job (st : DBState) (job_id : Nat) : Option ScrapeJob :=
  st.jobs.find? (fun j => j.id == job_id)

/-- db.query(User).filter(User.id == user_id).first() -/
def find_user (st : DBState) (user_id : Nat) : Option User :=
  st.users.find? (fun u => u.id == user_id)

/-- db.query(UserSettings).filter(UserSettings.user_id == user_id).first() -/
def find_user_settings (st : DBState) (user_id : Nat) : Option UserSettings :=
  st.settings.find? (fun s => s.user_id == user_id)

/-- db.query(Video).filter(Video.id == video_id).first() -/
def find_video (st : DBState) (video_id : Nat) : Option Video :=
  st.videos.find? (fun v => v.id == video_id)

/-- Mutating the ORM object returned by a primary-key lookup and
committing: id is the primary key, so updating every row with that id
updates exactly the row the lookup returned. -/
def update_job (st : DBState) (job_id : Nat) (f : ScrapeJob → ScrapeJob) : DBState :=
  { st with jobs := st.jobs.map (fun j => if j.id == job_id then f j else j) }

/-- Same as update_job, for the videos table. -/
def update_video (st : DBState) (video_id : Nat) (f : Video → Video) : DBState :=
  { st with videos := st.videos.map (fun v => if v.id == video_id then f v else v) }

/-- user_settings.min_likes if user_settings else 1000 (jobs.py line 59). -/
def settings_min_likes (us : Option UserSettings) : Nat :=
  match us with
  | some s => s.min_likes
  | none => 1000

/-- user_settings.date_filter if user_settings else "this_week" (jobs.py
line 60). -/
def settings_date_filter (us : Option UserSettings) : String :=
  match us with
  | some s => s.date_filter
  | none => "this_week"

/-! ## app/routers/jobs.py: run_scrape_job -/

/-- The new Video row built at jobs.py lines 73-88 for a candidate that
passed the duplicate check, with transcription_status pending and the
id drawn from the autoincrement counter. -/
def mk_video (st : DBState) (user_id keyword_id : Nat) (c : Candidate) (url : String) : Video :=
  { id := st.next_video_id
    user_id := user_id
    keyword_id := keyword_id
    platform := c.platform
    video_url := url
    video_id := c.video_id
    author_username := c.author_username
    author_name := c.author_name
    description := c.description
    likes := c.likes
    comments := c.comments
    shares := c.shares
    views := c.views
    transcription := none
    transcription_status := "pending"
    posted_at := c.posted_at }

/-- One iteration of the inner save loop of run_scrape_job (jobs.py
lines 64-90) for a candidate whose video_url is the string url: look up
any existing Video with that URL across the whole table (no user or
keyword filter), skip if found, insert otherwise. The Bool reports
whether a row was inserted (the total_videos increment). -/
def ingest_candidate (st : DBState) (user_id keyword_id : Nat) (c : Candidate)
    (url : String) : DBState × Bool :=
  if st.videos.any (fun v => v.video_url == url) then (st, false)
  else
    ({ st with
        videos := st.videos ++ [mk_video st user_id keyword_id c url]
        next_video_id := st.next_video_id + 1 }, true)

/-- The inner save loop of run_scrape_job over one keyword's candidate
batch. SQLAlchemy autoflush makes each duplicate check see the rows
added earlier in the same batch, which the state threading models. A
candidate whose video_url is Python None would be inserted as a NULL
into a NOT NULL column: the flush fails, the per-keyword except catches
it and the keyword's uncommitted work is rolled back; that outcome is
the none result (the session corruption a real rollback failure would
leave behind is outside the serialized model). The Nat counts inserted
rows. -/
def ingest_batch (st : DBState) (user_id keyword_id : Nat) :
    List Candidate → Option (DBState × Nat)
  | [] => some (st, 0)
  | c :: rest =>
    match c.video_url with
    | none => none
    | some url =>
      let p := ingest_candidate st user_id keyword_id c url
      match ingest_batch p.1 user_id keyword_id rest with
      | none => none
      | some (st2, n) => some (st2, (if p.2 then 1 else 0) + n)

/-- The body of the per-keyword try block of run_scrape_job (jobs.py
lines 53-102): scrape, save the batch, fire the best-effort sheet
mirror when the user has one connected. none is the except path (search
failure or batch flush failure): nothing of the keyword is kept and it
does not count toward keywords_processed. The mirror receives the raw
candidate batch and its result is discarded. -/
def process_keyword (o : ScrapeOracle) (m : MirrorOracle) (now : String)
    (user : User) (us : Option UserSettings) (user_id : Nat) (st : DBState)
    (k : Keyword) : Option (DBState × Nat) :=
  match scrape_by_platform o k.platform k.keyword k.results_per_run
      (settings_min_likes us) (settings_date_filter us) with
  | .error _ => none
  | .ok videos_data =>
    match ingest_batch st user_id k.id videos_data with
    | none => none
    | some (st2, inserted) =>
      let _sheet_count :=
        match user.google_sheet_id with
        | some sheet_id => add_videos_batch m sheet_id videos_data k.platform k.keyword now
        | none => 0
      some (st2, inserted)

/-- The keyword loop of run_scrape_job (jobs.py lines 52-106): per
keyword, a failure is logged and skipped (continue), a success counts
one keyword and its inserted rows. Returns the final store together
with the keywords_processed increment and the total_videos counter. -/
def scrape_loop (o : ScrapeOracle) (m : MirrorOracle) (now : String)
    (user : User) (us : Option UserSettings) (user_id : Nat) :
    DBState → List Keyword → DBState × Nat × Nat
  | st, [] => (st, 0, 0)
  | st, k :: rest =>
    match process_keyword o m now user us user_id st k with
    | none => scrape_loop o m now user us user_id st rest
    | some (st2, inserted) =>
      let r := scrape_loop o m now user us user_id st2 rest
      (r.1, r.2.1 + 1, r.2.2 + inserted)

/-- The active-keyword query of run_scrape_job (jobs.py lines 40-48):
the user's active keywords, optionally narrowed to the job's platform. -/
def active_keywords (st : DBState) (user_id : Nat)
    (platform : Option PlatformEnum) : List Keyword :=
  (st.keywords.filter (fun k => k.user_id == user_id && k.is_active)).filter
    (fun k => match platform with
      | some p => k.platform == p
      | none => true)

/-- The background task run_scrape_job (jobs.py lines 15-121), one
serialized atomic run over a reliable store. Returns the final store
and the sequence of status values written to the job row. When the job
or the user row is missing the task returns without touching anything.
Otherwise the job is set RUNNING, the keyword loop runs (per-keyword
failures are swallowed inside it), and the job is set COMPLETED with
keywords_processed accumulated and videos_found overwritten by the
total_videos counter; the source increments keywords_processed once per
successful keyword inside the loop, which over an atomic run equals
adding the success count at the end. The outer except that writes
FAILED is reachable only through a store or control failure, which the
reliable-store model excludes, so the model never emits it. -/
def run_scrape_job (o : ScrapeOracle) (m : MirrorOracle) (now : String)
    (st : DBState) (job_id user_id : Nat) (platform : Option PlatformEnum) :
    DBState × List JobStatusEnum :=
  match find_job st job_id, find_user st user_id with
  | some _job, some user =>
    let us := find_user_settings st user_id
    let st1 := update_job st job_id (fun j => { j with status := .running })
    let kws := active_keywords st1 user_id platform
    let r := scrape_loop o m now user us user_id st1 kws
    let st3 := update_job r.1 job_id (fun j =>
      { j with
          status := .completed
          keywords_processed := j.keywords_processed + r.2.1
          videos_found := r.2.2 })
    (st3, [.running, .completed])
  | _, _ => (st, [])

/-! ## app/routers/jobs.py: run_transcription_job -/

/-- The background task run_transcription_job (jobs.py lines 124-160),
one serialized atomic run. backend is
transcription_service.transcribe_video: the whole
download-extract-transcribe pipeline for a video URL, which either
yields the flattened transcript text or fails. On the success path the
transcript is written and the status set completed, then the
best-effort sheet update fires (update_transcription_in_sheet swallows
its own failures, so it cannot disturb the committed video row). On any
pipeline failure the except sets the status failed; the transcript
column is never assigned on that path. A missing video row means the
task returns without touching anything. -/
def run_transcription_job (backend : String → Except String String)
    (m : MirrorOracle) (st : DBState) (video_id : Nat) : DBState :=
  match find_video st video_id with
  | none => st
  | some video =>
    let st1 := update_video st video_id
      (fun v => { v with transcription_status := "processing" })
    match backend video.video_url with
    | .ok transcription_text =>
      let st2 := update_video st1 video_id (fun v =>
        { v with
            transcription := some transcription_text
            transcription_status := "completed" })
      let _mirror :=
        match find_user st2 video.user_id with
        | some user =>
          match user.google_sheet_id with
          | some sheet_id =>
            update_transcription_in_sheet m sheet_id video.video_url
              video.platform transcription_text
          | none => true
        | none => true
      st2
    | .error _ =>
      update_video st1 video_id (fun v => { v with transcription_status := "failed" })

/-! ## app/routers/jobs.py: HTTP handlers -/

/-- Outcome of the POST /scrape handler. -/
inductive JobStartResult where
  | alreadyRunningRejected
  | started : Nat → JobStartResult
deriving DecidableEq, Repr

/-- The fresh PENDING job row created at jobs.py lines 196-200. -/
def mk_pending_job (st : DBState) (user_id : Nat)
    (platform : Option PlatformEnum) : ScrapeJob :=
  { id := st.next_job_id
    user_id := user_id
    status := .pending
    platform := platform
    keywords_processed := 0
    videos_found := 0
    videos_transcribed := 0
    error_message := none }

/-- The POST /scrape handler start_scrape_job (jobs.py lines 175-213):
the job-admission operation. If the current user already has a job in
RUNNING status the request is rejected with HTTP 400 and nothing is
written; otherwise a PENDING job is created and the background run is
scheduled for it (scheduling is returned as the created job id). -/
def start_scrape_job (st : DBState) (current_user_id : Nat)
    (platform : Option PlatformEnum) : JobStartResult × DBState :=
  match st.jobs.find? (fun j => j.user_id == current_user_id && j.status == .running) with
  | some _ => (.alreadyRunningRejected, st)
  | none =>
    let new_job := mk_pending_job st current_user_id platform
    (.started new_job.id,
     { st with jobs := st.jobs ++ [new_job], next_job_id := st.next_job_id + 1 })

/-- Outcome of the POST /transcribe handler. -/
inductive TrStartResult where
  | notFound
  | alreadyInProgress
  | accepted
deriving DecidableEq, Repr

/-- The POST /transcribe video_id handler start_transcription (jobs.py
lines 237-264): look up the video among the current user's videos (404
if absent), reject with HTTP 400 when its status is processing, and
otherwise schedule the background pipeline for it. The returned list is
the scheduled background task queue; the handler itself writes nothing
to the store on any path. -/
def start_transcription (st : DBState) (current_user_id video_id : Nat) :
    TrStartResult × DBState × List Nat :=
  match st.videos.find? (fun v => v.id == video_id && v.user_id == current_user_id) with
  | none => (.notFound, st, [])
  | some video =>
    if video.transcription_status == "processing" then (.alreadyInProgress, st, [])
    else (.accepted, st, [video.id])

/-! ## Generic list helpers -/

/-- find? over a map that rewrites exactly the rows matching the lookup
predicate: the lookup on the updated list returns the updated row. -/
theorem find?_map_update {α : Type} (p : α → Bool) (g : α → α)
    (hg : ∀ a, p (g a) = p a) :
    ∀ l : List α,
      (l.map (fun a => if p a then g a else a)).find? p = (l.find? p).map g := by
  intro l
  induction l with
  | nil => rfl
  | cons a l ih =>
    rw [List.map_cons]
    cases hpa : p a with
    | true =>
      rw [if_pos rfl, List.find?_cons_of_pos _ (by rw [hg, hpa]),
        List.find?_cons_of_pos _ hpa, Option.map_some']
    | false =>
      rw [if_neg (by simp), List.find?_cons_of_neg _ (by simp [hpa]),
        List.find?_cons_of_neg _ (by simp [hpa]), ih]

/-- countP of a mapped list is bounded by countP of the original when
the predicate pulls back. -/
theorem countP_map_le {α : Type} (g : α → α) (p q : α → Bool)
    (h : ∀ a, p (g a) = true → q a = true) :
    ∀ l : List α, (l.map g).countP p ≤ l.countP q := by
  intro l
  induction l with
  | nil => simp
  | cons a l ih =>
    rw [List.map_cons, List.countP_cons, List.countP_cons]
    have hq : (if p (g a) then 1 else 0) ≤ (if q a then 1 else 0) := by
      cases hpa : p (g a) with
      | true => simp [h a hpa]
      | false => simp
    omega

/-! ## Claim C10 -/

/-- C10: for any two values of the date_filter (recency window) argument
and otherwise identical inputs and provider responses, the TikTok and
Instagram search wrappers build identical provider requests and return
identical candidate lists. The provider oracle is universally
quantified, so equality of the results for every oracle also witnesses
that the requests handed to the provider are identical: date_filter
never reaches the run_input and never filters the results. -/
theorem C10_date_filter_has_no_effect :
    ∀ (o : ScrapeOracle) (keyword : String) (max_results min_likes : Nat)
      (df1 df2 : String),
      scrape_tiktok o keyword max_results min_likes df1 =
        scrape_tiktok o keyword max_results min_likes df2 ∧
      scrape_instagram o keyword max_results min_likes df1 =
        scrape_instagram o keyword max_results min_likes df2 := by
  intro o keyword max_results min_likes df1 df2
  exact ⟨rfl, rfl⟩

/-! ## Claim C1 -/

/-- The global invariant of the videos table: no two stored rows share a
source URL. -/
def UrlsUnique (st : DBState) : Prop :=
  (st.videos.map (fun v => v.video_url)).Nodup

/-- How many stored videos carry the given source URL. -/
def count_url (st : DBState) (url : String) : Nat :=
  st.videos.countP (fun v => v.video_url == url)

/-- count_url through the url projection. -/
theorem count_url_eq_count (st : DBState) (url : String) :
    count_url st url = (st.videos.map (fun v => v.video_url)).count url := by
  unfold count_url
  rw [List.count, List.countP_map]
  rfl

/-- Under the uniqueness invariant a URL occurs at most once. -/
theorem count_url_le_one (st : DBState) (url : String) (h : UrlsUnique st) :
    count_url st url ≤ 1 := by
  rw [count_url_eq_count]
  exact List.nodup_iff_count_le_one.mp h url

/-- A URL present among the stored videos makes the duplicate check
positive. -/
theorem any_url_of_mem (st : DBState) (url : String)
    (h : ∃ v ∈ st.videos, v.video_url = url) :
    st.videos.any (fun v => v.video_url == url) = true := by
  rcases h with ⟨v, hv, hurl⟩
  exact List.any_eq_true.mpr ⟨v, hv, by simp [hurl]⟩

/-- C1: ingesting two candidates with the same source URL, under any
users and keywords, leaves exactly one stored Video with that URL: a
positive duplicate check skips with no mutation, and the global
no-two-videos-share-a-URL invariant is preserved by every ingest step.
ingest_candidate is the body of the save loop of run_scrape_job
(jobs.py lines 64-90), whose duplicate lookup filters on the URL alone,
with no user or keyword scoping. -/
theorem C1_ingest_dedup_exactly_once
    (st : DBState) (uid1 kid1 uid2 kid2 : Nat) (c1 c2 : Candidate) (url : String)
    (h1 : c1.video_url = some url) (h2 : c2.video_url = some url)
    (hU : UrlsUnique st) :
    ((∃ v ∈ st.videos, v.video_url = url) →
      ingest_candidate st uid1 kid1 c1 url = (st, false)) ∧
    UrlsUnique (ingest_candidate st uid1 kid1 c1 url).1 ∧
    count_url (ingest_candidate
      (ingest_candidate st uid1 kid1 c1 url).1 uid2 kid2 c2 url).1 url = 1 := by
  cases hP : st.videos.any (fun v => v.video_url == url) with
  | true =>
    have hskip : ingest_candidate st uid1 kid1 c1 url = (st, false) := by
      unfold ingest_candidate
      rw [if_pos hP]
    have hcount : count_url st url = 1 := by
      have hle := count_url_le_one st url hU
      have hpos : 0 < count_url st url := by
        unfold count_url
        rw [List.countP_pos_iff]
        rcases List.any_eq_true.mp hP with ⟨v, hv, hb⟩
        exact ⟨v, hv, hb⟩
      omega
    refine ⟨fun _ => hskip, ?_, ?_⟩
    · rw [hskip]; exact hU
    · rw [hskip]
      show count_url (ingest_candidate st uid2 kid2 c2 url).1 url = 1
      unfold ingest_candidate
      rw [if_pos hP]
      exact hcount
  | false =>
    have hins : ingest_candidate st uid1 kid1 c1 url =
        ({ st with
            videos := st.videos ++ [mk_video st uid1 kid1 c1 url]
            next_video_id := st.next_video_id + 1 }, true) := by
      unfold ingest_candidate
      rw [if_neg (by simp [hP])]
    have hnotmem : url ∉ st.videos.map (fun v => v.video_url) := by
      intro hmem
      rcases List.mem_map.mp hmem with ⟨v, hv, hurl⟩
      have hA : st.videos.any (fun v => v.video_url == url) = true :=
        List.any_eq_true.mpr ⟨v, hv, by simp [hurl]⟩
      rw [hP] at hA
      exact Bool.false_ne_true hA
    refine ⟨?_, ?_, ?_⟩
    · intro hex
      exact absurd (any_url_of_mem st url hex) (by simp [hP])
    · rw [hins]
      unfold UrlsUnique
      simp only [List.map_append, List.map_cons, List.map_nil]
      rw [List.nodup_append]
      refine ⟨hU, List.nodup_singleton _, ?_⟩
      intro a ha hb
      simp only [List.mem_singleton] at hb
      subst hb
      exact hnotmem ha
    · rw [hins]
      show count_url (ingest_candidate
        { st with
            videos := st.videos ++ [mk_video st uid1 kid1 c1 url]
            next_video_id := st.next_video_id + 1 } uid2 kid2 c2 url).1 url = 1
      have hmem2 : (st.videos ++ [mk_video st uid1 kid1 c1 url]).any
          (fun v => v.video_url == url) = true :=
        List.any_eq_true.mpr ⟨mk_video st uid1 kid1 c1 url, by simp, by simp [mk_video]⟩
      unfold ingest_candidate
      rw [if_pos hmem2]
      show count_url
        { st with
            videos := st.videos ++ [mk_video st uid1 kid1 c1 url]
            next_video_id := st.next_video_id + 1 } url = 1
      unfold count_url
      rw [List.countP_append]
      have hzero : st.videos.countP (fun v => v.video_url == url) = 0 := by
        rw [List.countP_eq_zero]
        intro v hv
        simp only [beq_iff_eq]
        intro hurl
        exact hnotmem (List.mem_map.mpr ⟨v, hv, hurl⟩)
      rw [hzero]
      simp [mk_video]

/-- Concrete store for the C1 witness: one stored TikTok video. -/
def c1_video : Video :=
  { id := 1, user_id := 1, keyword_id := 1, platform := .tiktok
    video_url := "https://www.tiktok.com/@a/video/1", video_id := none
    author_username := none, author_name := none, description := none
    likes := 5, comments := 0, shares := 0, views := 0
    transcription := none, transcription_status := "pending", posted_at := none }

/-- Concrete store for the C1 witness. -/
def c1_state : DBState :=
  { users := [], keywords := [], videos := [c1_video], jobs := [], settings := []
    next_video_id := 2, next_job_id := 1 }

/-- Concrete candidate for the C1 witness, carrying the URL already
stored in c1_state under a different user and keyword. -/
def c1_candidate : Candidate :=
  { platform := .tiktok, video_url := some "https://www.tiktok.com/@a/video/1"
    video_id := none, author_username := none, author_name := none
    description := none, likes := 7, comments := 0, shares := 0, views := 0
    posted_at := none }

/-- Witness for C1 at a concrete store: the invariant holds, and after
ingesting the duplicate candidate twice exactly one video with the URL
is stored. -/
theorem C1_witness :
    UrlsUnique c1_state ∧
    count_url (ingest_candidate
      (ingest_candidate c1_state 2 2 c1_candidate "https://www.tiktok.com/@a/video/1").1
      3 3 c1_candidate "https://www.tiktok.com/@a/video/1").1
      "https://www.tiktok.com/@a/video/1" = 1 :=
  ⟨by unfold UrlsUnique; decide,
   (C1_ingest_dedup_exactly_once c1_state 2 2 3 3 c1_candidate c1_candidate
     "https://www.tiktok.com/@a/video/1" rfl rfl (by unfold UrlsUnique; decide)).2.2⟩

/-! ## Claim C6 -/

/-- find_video after update_video: an id-preserving row update is seen
by the primary-key lookup. -/
theorem find_video_update (st : DBState) (vid : Nat) (g : Video → Video)
    (hg : ∀ v, (g v).id = v.id) :
    find_video (update_video st vid g) vid = (find_video st vid).map g := by
  simp only [find_video, update_video]
  exact find?_map_update (fun v : Video => v.id == vid) g (fun a => by simp only [hg]) st.videos

/-- Shape of a failed transcription run: the row is set processing, the
pipeline fails, the except sets failed; the transcript column is never
assigned. -/
theorem run_transcription_job_error_shape
    (b : String → Except String String) (m : MirrorOracle) (st : DBState)
    (vid : Nat) (v : Video) (e : String)
    (hv : find_video st vid = some v) (hb : b v.video_url = .error e) :
    run_transcription_job b m st vid =
      update_video (update_video st vid
        (fun x => { x with transcription_status := "processing" })) vid
        (fun x => { x with transcription_status := "failed" }) := by
  simp only [run_transcription_job, hv, hb]

/-- Shape of a successful transcription run: the row is set processing,
then the transcript is written and the status set completed; the
best-effort mirror update is discarded. -/
theorem run_transcription_job_ok_shape
    (b : String → Except String String) (m : MirrorOracle) (st : DBState)
    (vid : Nat) (v : Video) (t : String)
    (hv : find_video st vid = some v) (hb : b v.video_url = .ok t) :
    run_transcription_job b m st vid =
      update_video (update_video st vid
        (fun x => { x with transcription_status := "processing" })) vid
        (fun x => { x with transcription := some t, transcription_status := "completed" }) := by
  simp only [run_transcription_job, hv, hb]

/-- C6: on any pipeline failure the video ends with status failed and
its transcript column untouched (in particular an unset transcript
stays unset); on success the transcript text is written and the status
set completed; a successful re-trigger after a failure ends with status
completed and the transcript set to the returned text (the non-empty
transcript of the claim: the column goes from NULL to the pipeline's
text). The backend oracle stands for the whole
download-extract-transcribe pipeline of
transcription_service.transcribe_video. -/
theorem C6_transcription_failure_and_retrigger
    (b1 b2 : String → Except String String) (m1 m2 : MirrorOracle)
    (st : DBState) (vid : Nat) (v : Video)
    (hv : find_video st vid = some v) :
    (∀ e, b1 v.video_url = .error e →
      ∃ v', find_video (run_transcription_job b1 m1 st vid) vid = some v' ∧
        v'.transcription_status = "failed" ∧
        v'.transcription = v.transcription ∧
        v'.video_url = v.video_url) ∧
    (∀ t, b1 v.video_url = .ok t →
      ∃ v', find_video (run_transcription_job b1 m1 st vid) vid = some v' ∧
        v'.transcription_status = "completed" ∧
        v'.transcription = some t) ∧
    (∀ e t, b1 v.video_url = .error e → b2 v.video_url = .ok t →
      ∃ v', find_video (run_transcription_job b2 m2
          (run_transcription_job b1 m1 st vid) vid) vid = some v' ∧
        v'.transcription_status = "completed" ∧
        v'.transcription = some t) := by
  have hfail : ∀ e, b1 v.video_url = .error e →
      find_video (run_transcription_job b1 m1 st vid) vid =
        some { v with transcription_status := "failed" } := by
    intro e hb
    rw [run_transcription_job_error_shape b1 m1 st vid v e hv hb,
      find_video_update _ vid (fun x => { x with transcription_status := "failed" })
        (fun x => rfl),
      find_video_update st vid (fun x => { x with transcription_status := "processing" })
        (fun x => rfl),
      hv]
    rfl
  refine ⟨?_, ?_, ?_⟩
  · intro e hb
    exact ⟨{ v with transcription_status := "failed" }, hfail e hb, rfl, rfl, rfl⟩
  · intro t hb
    refine ⟨{ v with transcription := some t, transcription_status := "completed" }, ?_, rfl, rfl⟩
    rw [run_transcription_job_ok_shape b1 m1 st vid v t hv hb,
      find_video_update _ vid
        (fun x => { x with transcription := some t, transcription_status := "completed" })
        (fun x => rfl),
      find_video_update st vid (fun x => { x with transcription_status := "processing" })
        (fun x => rfl),
      hv]
    rfl
  · intro e t hb1 hb2
    have hv2 := hfail e hb1
    refine ⟨{ v with transcription := some t, transcription_status := "completed" }, ?_, rfl, rfl⟩
    rw [run_transcription_job_ok_shape b2 m2 _ vid
        { v with transcription_status := "failed" } t hv2 hb2,
      find_video_update _ vid
        (fun x => { x with transcription := some t, transcription_status := "completed" })
        (fun x => rfl),
      find_video_update _ vid (fun x => { x with transcription_status := "processing" })
        (fun x => rfl),
      hv2]
    rfl

/-- The stored video of the C6 witness store. -/
def c6_video : Video :=
  { id := 1, user_id := 1, keyword_id := 1, platform := .tiktok
    video_url := "https://www.tiktok.com/@a/video/6", video_id := none
    author_username := none, author_name := none, description := none
    likes := 0, comments := 0, shares := 0, views := 0
    transcription := none, transcription_status := "pending", posted_at := none }

/-- Concrete store for the C6 witness: one pending video with no
transcript. -/
def c6_state : DBState :=
  { users := [{ id := 1, google_sheet_id := none }], keywords := []
    videos := [c6_video], jobs := [], settings := []
    next_video_id := 2, next_job_id := 1 }

/-- A transcript backend that always fails. -/
def c6_backend_fail : String → Except String String :=
  fun _ => .error "download failed"

/-- A transcript backend that always returns a transcript. -/
def c6_backend_ok : String → Except String String :=
  fun _ => .ok "hello world"

/-- A mirror whose every call fails. -/
def failing_mirror : MirrorOracle :=
  { append_rows := fun _ _ _ => .error "api error"
    find_cell := fun _ _ _ => .error "api error"
    update_range := fun _ _ _ _ => .error "api error" }

/-- Witness for C6 at a concrete store: a failed run keeps the
transcript unset with status failed, and the successful re-trigger ends
completed with the transcript text. -/
theorem C6_witness :
    (∃ v', find_video (run_transcription_job c6_backend_fail failing_mirror c6_state 1) 1
        = some v' ∧
      v'.transcription_status = "failed" ∧
      v'.transcription = c6_video.transcription ∧
      v'.video_url = c6_video.video_url) ∧
    (∃ v', find_video (run_transcription_job c6_backend_ok failing_mirror
        (run_transcription_job c6_backend_fail failing_mirror c6_state 1) 1) 1 = some v' ∧
      v'.transcription_status = "completed" ∧
      v'.transcription = some "hello world") :=
  ⟨(C6_transcription_failure_and_retrigger c6_backend_fail c6_backend_ok
      failing_mirror failing_mirror c6_state 1 c6_video rfl).1 "download failed" rfl,
   (C6_transcription_failure_and_retrigger c6_backend_fail c6_backend_ok
      failing_mirror failing_mirror c6_state 1 c6_video rfl).2.2 "download failed"
      "hello world" rfl rfl⟩

/-! ## Claim C7 -/

/-- A pending video owned by user 1, for the C7 counterexample. -/
def c7_video : Video :=
  { id := 1, user_id := 1, keyword_id := 1, platform := .tiktok
    video_url := "https://www.tiktok.com/@a/video/7", video_id := none
    author_username := none, author_name := none, description := none
    likes := 0, comments := 0, shares := 0, views := 0
    transcription := none, transcription_status := "pending", posted_at := none }

/-- Concrete store for the C7 counterexample. -/
def c7_state : DBState :=
  { users := [{ id := 1, google_sheet_id := none }], keywords := []
    videos := [c7_video], jobs := [], settings := []
    next_video_id := 2, next_job_id := 1 }

/-- C7 counterexample: the claim says an accepted start-transcription
sets the video status to processing; in the code the handler only
schedules the background pipeline and writes nothing, so on a pending
video the request is accepted yet the stored status is still pending,
not processing (the pipeline itself makes the processing write later,
jobs.py line 134). -/
theorem C7_counterexample :
    (start_transcription c7_state 1 1).1 = .accepted ∧
    (start_transcription c7_state 1 1).2.1 = c7_state ∧
    (start_transcription c7_state 1 1).2.1.videos.map (fun v => v.transcription_status)
      = ["pending"] := by
  refine ⟨?_, ?_, ?_⟩ <;> decide

/-- C7 as amended: for the current user's video, start-transcription is
rejected with AlreadyInProgress exactly when the stored status is
processing, with no state change; in every other status it is accepted
and schedules the pipeline for the video, also with no state change by
the handler itself (the scheduled pipeline performs the processing
write when it begins). -/
theorem C7_amended_start_transcription
    (st : DBState) (uid vid : Nat) (video : Video)
    (hfind : st.videos.find? (fun v => v.id == vid && v.user_id == uid) = some video) :
    (video.transcription_status = "processing" →
      start_transcription st uid vid = (.alreadyInProgress, st, [])) ∧
    (video.transcription_status ≠ "processing" →
      start_transcription st uid vid = (.accepted, st, [video.id])) := by
  constructor
  · intro h
    simp only [start_transcription, hfind]
    rw [if_pos (by simp [h])]
  · intro h
    simp only [start_transcription, hfind]
    rw [if_neg (by simp [h])]

/-- A video already processing, for the C7 witness. -/
def c7_wit_video : Video :=
  { id := 1, user_id := 1, keyword_id := 1, platform := .tiktok
    video_url := "https://www.tiktok.com/@a/video/8", video_id := none
    author_username := none, author_name := none, description := none
    likes := 0, comments := 0, shares := 0, views := 0
    transcription := none, transcription_status := "processing", posted_at := none }

/-- Concrete store for the C7 witness. -/
def c7_wit_state : DBState :=
  { users := [{ id := 1, google_sheet_id := none }], keywords := []
    videos := [c7_wit_video], jobs := [], settings := []
    next_video_id := 2, next_job_id := 1 }

/-- Witness for the amended C7: starting transcription on a video whose
stored status is processing is rejected with AlreadyInProgress, nothing
is written and nothing is scheduled. -/
theorem C7_witness :
    start_transcription c7_wit_state 1 1 = (.alreadyInProgress, c7_wit_state, []) :=
  (C7_amended_start_transcription c7_wit_state 1 1 c7_wit_video (by decide)).1 rfl

/-! ## Claim C8 -/

/-- The mirror call inside process_keyword is fire-and-forget: its
result is discarded, and add_videos_batch itself swallows every client
failure, so the keyword loop state never depends on the mirror. -/
theorem scrape_loop_mirror_irrelevant (o : ScrapeOracle) (m1 m2 : MirrorOracle)
    (now : String) (user : User) (us : Option UserSettings) (user_id : Nat) :
    ∀ (kws : List Keyword) (st : DBState),
      scrape_loop o m1 now user us user_id st kws =
        scrape_loop o m2 now user us user_id st kws := by
  intro kws
  induction kws with
  | nil => intro st; rfl
  | cons k rest ih =>
    intro st
    have hpk : process_keyword o m1 now user us user_id st k =
        process_keyword o m2 now user us user_id st k := rfl
    cases hres : process_keyword o m2 now user us user_id st k with
    | none =>
      simp only [scrape_loop, hpk, hres]
      exact ih st
    | some p =>
      simp only [scrape_loop, hpk, hres]
      rw [ih p.1]

/-- C8: any internal failure of the Mirror Sync operations is swallowed
inside sheets.py (add_videos_batch returns 0, update_transcription_in_sheet
returns False, neither raises), and the Job and Video state after a run
with one mirror is identical to the state after the same run with any
other mirror, in particular a failing one versus a no-op one. Both
background tasks are quantified over two arbitrary mirror oracles. -/
theorem C8_mirror_is_best_effort
    (o : ScrapeOracle) (m1 m2 : MirrorOracle) (now : String) (st : DBState)
    (job_id user_id : Nat) (platform : Option PlatformEnum)
    (backend : String → Except String String) (vid : Nat) :
    run_scrape_job o m1 now st job_id user_id platform =
      run_scrape_job o m2 now st job_id user_id platform ∧
    run_transcription_job backend m1 st vid =
      run_transcription_job backend m2 st vid := by
  constructor
  · cases hj : find_job st job_id with
    | none => simp only [run_scrape_job, hj]
    | some job =>
      cases hu : find_user st user_id with
      | none => simp only [run_scrape_job, hj, hu]
      | some user =>
        simp only [run_scrape_job, hj, hu,
          scrape_loop_mirror_irrelevant o m1 m2 now user]
  · cases hv : find_video st vid with
    | none => simp only [run_transcription_job, hv]
    | some video =>
      cases hb : backend video.video_url with
      | ok t => simp only [run_transcription_job, hv, hb]
      | error e => simp only [run_transcription_job, hv, hb]

/-! ## The keyword loop specification (shared by C2, C5, C9) -/

/-- Whether one keyword's try block in run_scrape_job succeeds: the
search call must not fail, and every candidate must carry a source URL
(a candidate with a None URL makes the NOT NULL insert blow up inside
the same try). Success of a keyword depends only on the oracle and the
settings, never on the store. -/
def keyword_ok (o : ScrapeOracle) (us : Option UserSettings) (k : Keyword) : Bool :=
  match scrape_by_platform o k.platform k.keyword k.results_per_run
      (settings_min_likes us) (settings_date_filter us) with
  | .error _ => false
  | .ok videos_data => videos_data.all (fun c => c.video_url.isSome)

/-- A positive duplicate check makes ingest_candidate skip. -/
theorem ingest_candidate_skip (st : DBState) (uid kid : Nat) (c : Candidate)
    (url : String) (h : st.videos.any (fun v => v.video_url == url) = true) :
    ingest_candidate st uid kid c url = (st, false) := by
  unfold ingest_candidate
  rw [if_pos h]

/-- A negative duplicate check makes ingest_candidate insert. -/
theorem ingest_candidate_insert (st : DBState) (uid kid : Nat) (c : Candidate)
    (url : String) (h : st.videos.any (fun v => v.video_url == url) = false) :
    ingest_candidate st uid kid c url =
      ({ st with
          videos := st.videos ++ [mk_video st uid kid c url]
          next_video_id := st.next_video_id + 1 }, true) := by
  unfold ingest_candidate
  rw [if_neg (by simp [h])]

/-- Whether the batch save succeeds depends only on the candidates (all
URLs present), not on the store. -/
theorem ingest_batch_isSome (uid kid : Nat) :
    ∀ (cs : List Candidate) (st : DBState),
      (ingest_batch st uid kid cs).isSome = cs.all (fun c => c.video_url.isSome) := by
  intro cs
  induction cs with
  | nil => intro st; rfl
  | cons c rest ih =>
    intro st
    cases hc : c.video_url with
    | none => simp [ingest_batch, hc]
    | some url =>
      have hrec := ih (ingest_candidate st uid kid c url).1
      simp only [ingest_batch, hc, List.all_cons, Option.isSome_some, Bool.true_and]
      cases h2 : ingest_batch (ingest_candidate st uid kid c url).1 uid kid rest with
      | none =>
        rw [h2] at hrec
        exact hrec
      | some p =>
        rw [h2] at hrec
        obtain ⟨st3, n3⟩ := p
        exact hrec

/-- What a successful batch save does to the store: it appends exactly
the inserted rows, each owned by the given user and keyword, each with
a URL that was not stored before the batch, and it touches no other
table. -/
theorem ingest_batch_spec (uid kid : Nat) :
    ∀ (cs : List Candidate) (st st2 : DBState) (n : Nat),
      ingest_batch st uid kid cs = some (st2, n) →
      ∃ new : List Video,
        st2.videos = st.videos ++ new ∧
        n = new.length ∧
        (∀ v ∈ new, v.keyword_id = kid ∧ v.user_id = uid ∧
          v.transcription_status = "pending" ∧ v.transcription = none ∧
          ∀ w ∈ st.videos, w.video_url ≠ v.video_url) ∧
        st2.users = st.users ∧ st2.keywords = st.keywords ∧
        st2.jobs = st.jobs ∧ st2.settings = st.settings := by
  intro cs
  induction cs with
  | nil =>
    intro st st2 n h
    simp only [ingest_batch, Option.some_inj, Prod.mk.injEq] at h
    obtain ⟨h1, h2⟩ := h
    subst h1
    subst h2
    exact ⟨[], by simp, rfl, by simp, rfl, rfl, rfl, rfl⟩
  | cons c rest ih =>
    intro st st2 n h
    cases hc : c.video_url with
    | none => simp [ingest_batch, hc] at h
    | some url =>
      simp only [ingest_batch, hc] at h
      cases h2 : ingest_batch (ingest_candidate st uid kid c url).1 uid kid rest with
      | none =>
        rw [h2] at h
        simp at h
      | some p =>
        rw [h2] at h
        obtain ⟨st3, n3⟩ := p
        simp only [Option.some_inj, Prod.mk.injEq] at h
        obtain ⟨hst, hn⟩ := h
        subst hst
        subst hn
        cases hp : st.videos.any (fun v => v.video_url == url) with
        | true =>
          rw [ingest_candidate_skip st uid kid c url hp] at h2
          obtain ⟨new, hv, hlen, hmem, hu, hk, hj, hs⟩ := ih _ _ _ h2
          rw [ingest_candidate_skip st uid kid c url hp]
          exact ⟨new, hv, by simpa using hlen, hmem, hu, hk, hj, hs⟩
        | false =>
          rw [ingest_candidate_insert st uid kid c url hp] at h2
          obtain ⟨new, hv, hlen, hmem, hu, hk, hj, hs⟩ := ih _ _ _ h2
          rw [ingest_candidate_insert st uid kid c url hp]
          refine ⟨mk_video st uid kid c url :: new, ?_, ?_, ?_, hu, hk, hj, hs⟩
          · simp only at hv
            rw [hv]
            simp
          · simp [hlen, Nat.add_comm]
          · intro v hvmem
            rcases List.mem_cons.mp hvmem with hhead | htail
            · subst hhead
              refine ⟨rfl, rfl, rfl, rfl, ?_⟩
              intro w hw
              have := List.any_eq_false.mp hp w hw
              simpa [mk_video] using this
            · obtain ⟨h1, h2', h3, h4, h5⟩ := hmem v htail
              refine ⟨h1, h2', h3, h4, ?_⟩
              intro w hw
              exact h5 w (by simp [List.mem_append]; left; exact hw)

/-- Whether one keyword succeeds is independent of the store and equal
to keyword_ok. -/
theorem process_keyword_isSome (o : ScrapeOracle) (m : MirrorOracle) (now : String)
    (user : User) (us : Option UserSettings) (uid : Nat) (st : DBState) (k : Keyword) :
    (process_keyword o m now user us uid st k).isSome = keyword_ok o us k := by
  cases hs : scrape_by_platform o k.platform k.keyword k.results_per_run
      (settings_min_likes us) (settings_date_filter us) with
  | error e => simp [process_keyword, keyword_ok, hs]
  | ok cs =>
    simp only [process_keyword, keyword_ok, hs]
    have hib := ingest_batch_isSome uid k.id cs st
    cases h2 : ingest_batch st uid k.id cs with
    | none =>
      rw [h2] at hib
      exact hib
    | some p =>
      rw [h2] at hib
      obtain ⟨st3, n3⟩ := p
      exact hib

/-- What a successful keyword does to the store. -/
theorem process_keyword_some (o : ScrapeOracle) (m : MirrorOracle) (now : String)
    (user : User) (us : Option UserSettings) (uid : Nat) (st : DBState) (k : Keyword)
    (st2 : DBState) (ins : Nat)
    (h : process_keyword o m now user us uid st k = some (st2, ins)) :
    keyword_ok o us k = true ∧
    ∃ new : List Video,
      st2.videos = st.videos ++ new ∧
      ins = new.length ∧
      (∀ v ∈ new, v.keyword_id = k.id ∧ v.user_id = uid ∧
        v.transcription_status = "pending" ∧ v.transcription = none ∧
        ∀ w ∈ st.videos, w.video_url ≠ v.video_url) ∧
      st2.users = st.users ∧ st2.keywords = st.keywords ∧
      st2.jobs = st.jobs ∧ st2.settings = st.settings := by
  constructor
  · rw [← process_keyword_isSome o m now user us uid st k, h]
    rfl
  · cases hs : scrape_by_platform o k.platform k.keyword k.results_per_run
        (settings_min_likes us) (settings_date_filter us) with
    | error e =>
      simp [process_keyword, hs] at h
    | ok cs =>
      simp only [process_keyword, hs] at h
      cases h2 : ingest_batch st uid k.id cs with
      | none =>
        rw [h2] at h
        simp at h
      | some p =>
        rw [h2] at h
        obtain ⟨st3, n3⟩ := p
        simp only [Option.some_inj, Prod.mk.injEq] at h
        obtain ⟨hst, hn⟩ := h
        subst hst
        subst hn
        exact ingest_batch_spec uid k.id cs st _ _ h2

/-- update_job leaves the keywords table untouched. -/
theorem update_job_keywords (st : DBState) (job_id : Nat) (g : ScrapeJob → ScrapeJob) :
    (update_job st job_id g).keywords = st.keywords := rfl

/-- update_job leaves the users table untouched. -/
theorem update_job_users (st : DBState) (job_id : Nat) (g : ScrapeJob → ScrapeJob) :
    (update_job st job_id g).users = st.users := rfl

/-- update_job leaves the videos table untouched. -/
theorem update_job_videos (st : DBState) (job_id : Nat) (g : ScrapeJob → ScrapeJob) :
    (update_job st job_id g).videos = st.videos := rfl

/-- update_job leaves the settings table untouched. -/
theorem update_job_settings (st : DBState) (job_id : Nat) (g : ScrapeJob → ScrapeJob) :
    (update_job st job_id g).settings = st.settings := rfl

/-- The jobs table after update_job. -/
theorem update_job_jobs (st : DBState) (job_id : Nat) (g : ScrapeJob → ScrapeJob) :
    (update_job st job_id g).jobs =
      st.jobs.map (fun j => if j.id == job_id then g j else j) := rfl

/-- The active-keyword query only reads the keywords table. -/
theorem active_keywords_update_job (st : DBState) (job_id : Nat)
    (g : ScrapeJob → ScrapeJob) (uid : Nat) (pf : Option PlatformEnum) :
    active_keywords (update_job st job_id g) uid pf = active_keywords st uid pf := rfl

/-- find_job only reads the jobs table. -/
theorem find_job_congr (st st2 : DBState) (job_id : Nat) (h : st.jobs = st2.jobs) :
    find_job st job_id = find_job st2 job_id := by
  simp [find_job, h]

/-- find_job after update_job: an id-preserving row update is seen by
the primary-key lookup. -/
theorem find_job_update (st : DBState) (job_id : Nat) (g : ScrapeJob → ScrapeJob)
    (hg : ∀ j, (g j).id = j.id) :
    find_job (update_job st job_id g) job_id = (find_job st job_id).map g := by
  simp only [find_job, update_job]
  exact find?_map_update (fun j : ScrapeJob => j.id == job_id) g
    (fun a => by simp only [hg]) st.jobs

/-- Two successive guarded row updates compose pointwise. -/
theorem map_update_update {α : Type} (p : α → Bool) (g1 g2 : α → α)
    (h1 : ∀ a, p (g1 a) = p a) :
    ∀ l : List α,
      (l.map (fun a => if p a then g1 a else a)).map
          (fun a => if p a then g2 a else a) =
        l.map (fun a => if p a then g2 (g1 a) else a) := by
  intro l
  induction l with
  | nil => rfl
  | cons a l ih =>
    simp only [List.map_cons, ih]
    cases hpa : p a with
    | true => simp [hpa, h1]
    | false => simp [hpa]

/-- What the keyword loop of run_scrape_job does to the store: it
appends exactly the inserted rows, counts them in its total_videos
result, counts exactly the successful keywords, and touches no other
table. Every appended row belongs to a keyword of the run whose try
block succeeded and carries a URL not stored before the loop. -/
theorem scrape_loop_spec (o : ScrapeOracle) (m : MirrorOracle) (now : String)
    (user : User) (us : Option UserSettings) (uid : Nat) :
    ∀ (kws : List Keyword) (st : DBState),
      ∃ new : List Video,
        (scrape_loop o m now user us uid st kws).1.videos = st.videos ++ new ∧
        (scrape_loop o m now user us uid st kws).2.2 = new.length ∧
        (scrape_loop o m now user us uid st kws).2.1 =
          (kws.filter (keyword_ok o us)).length ∧
        (∀ v ∈ new,
          (∃ k, k ∈ kws ∧ keyword_ok o us k = true ∧ v.keyword_id = k.id) ∧
          v.user_id = uid ∧ v.transcription_status = "pending" ∧
          ∀ w ∈ st.videos, w.video_url ≠ v.video_url) ∧
        (scrape_loop o m now user us uid st kws).1.users = st.users ∧
        (scrape_loop o m now user us uid st kws).1.keywords = st.keywords ∧
        (scrape_loop o m now user us uid st kws).1.jobs = st.jobs ∧
        (scrape_loop o m now user us uid st kws).1.settings = st.settings := by
  intro kws
  induction kws with
  | nil =>
    intro st
    exact ⟨[], by simp [scrape_loop], by simp [scrape_loop], by simp [scrape_loop],
      by simp, by simp [scrape_loop], by simp [scrape_loop], by simp [scrape_loop],
      by simp [scrape_loop]⟩
  | cons k rest ih =>
    intro st
    cases hpk : process_keyword o m now user us uid st k with
    | none =>
      have hok : keyword_ok o us k = false := by
        rw [← process_keyword_isSome o m now user us uid st k, hpk]
        rfl
      obtain ⟨new, hv, htv, hkp, hmem, hu2, hk2, hj2, hs2⟩ := ih st
      have hloop : scrape_loop o m now user us uid st (k :: rest) =
          scrape_loop o m now user us uid st rest := by
        simp only [scrape_loop, hpk]
      rw [hloop]
      refine ⟨new, hv, htv, ?_, ?_, hu2, hk2, hj2, hs2⟩
      · rw [hkp, List.filter_cons_of_neg (by simp [hok])]
      · intro v hvmem
        obtain ⟨⟨k', hk', hok', hid⟩, hrest⟩ := hmem v hvmem
        exact ⟨⟨k', List.mem_cons_of_mem _ hk', hok', hid⟩, hrest⟩
    | some p =>
      obtain ⟨st2, ins⟩ := p
      obtain ⟨hok, new1, hv1, hins, hmem1, hu1, hk1, hj1, hs1⟩ :=
        process_keyword_some o m now user us uid st k st2 ins hpk
      obtain ⟨new2, hv2, htv2, hkp2, hmem2, hu2, hk2, hj2, hs2⟩ := ih st2
      have hloop : scrape_loop o m now user us uid st (k :: rest) =
          ((scrape_loop o m now user us uid st2 rest).1,
           (scrape_loop o m now user us uid st2 rest).2.1 + 1,
           (scrape_loop o m now user us uid st2 rest).2.2 + ins) := by
        simp only [scrape_loop, hpk]
      rw [hloop]
      refine ⟨new1 ++ new2, ?_, ?_, ?_, ?_,
        by rw [hu2, hu1], by rw [hk2, hk1], by rw [hj2, hj1], by rw [hs2, hs1]⟩
      · rw [hv2, hv1, List.append_assoc]
      · show (scrape_loop o m now user us uid st2 rest).2.2 + ins = (new1 ++ new2).length
        rw [htv2, hins, List.length_append]
        omega
      · show (scrape_loop o m now user us uid st2 rest).2.1 + 1 =
            ((k :: rest).filter (keyword_ok o us)).length
        rw [hkp2, List.filter_cons_of_pos (by simp [hok]), List.length_cons]
      · intro v hvmem
        rcases List.mem_append.mp hvmem with h1 | h2
        · obtain ⟨hkid, huid, hstat, htr, hfresh⟩ := hmem1 v h1
          exact ⟨⟨k, List.mem_cons_self _ _, hok, hkid⟩, huid, hstat, hfresh⟩
        · obtain ⟨⟨k', hk', hok', hid⟩, huid, hstat, hfresh⟩ := hmem2 v h2
          refine ⟨⟨k', List.mem_cons_of_mem _ hk', hok', hid⟩, huid, hstat, ?_⟩
          intro w hw
          apply hfresh w
          rw [hv1]
          exact List.mem_append_left _ hw

/-- What one run of the background task does when the job and the user
exist: the status write sequence is RUNNING then COMPLETED, the videos
table is extended by exactly the inserted rows, keywords_processed is
advanced by the number of successful keywords, videos_found is set to
the number of inserted rows, and no other table changes. -/
theorem run_scrape_job_spec (o : ScrapeOracle) (m : MirrorOracle) (now : String)
    (st : DBState) (job_id user_id : Nat) (platform : Option PlatformEnum)
    (job : ScrapeJob) (user : User)
    (hj : find_job st job_id = some job) (hu : find_user st user_id = some user) :
    ∃ new : List Video,
      (run_scrape_job o m now st job_id user_id platform).2 = [.running, .completed] ∧
      (run_scrape_job o m now st job_id user_id platform).1.videos = st.videos ++ new ∧
      (∀ v ∈ new,
        (∃ k, k ∈ active_keywords st user_id platform ∧
          keyword_ok o (find_user_settings st user_id) k = true ∧
          v.keyword_id = k.id) ∧
        v.user_id = user_id ∧ v.transcription_status = "pending" ∧
        ∀ w ∈ st.videos, w.video_url ≠ v.video_url) ∧
      (run_scrape_job o m now st job_id user_id platform).1.jobs =
        st.jobs.map (fun j => if j.id == job_id then
          { j with
              status := .completed
              keywords_processed := j.keywords_processed +
                ((active_keywords st user_id platform).filter
                  (keyword_ok o (find_user_settings st user_id))).length
              videos_found := new.length }
          else j) ∧
      find_job (run_scrape_job o m now st job_id user_id platform).1 job_id =
        some { job with
          status := .completed
          keywords_processed := job.keywords_processed +
            ((active_keywords st user_id platform).filter
              (keyword_ok o (find_user_settings st user_id))).length
          videos_found := new.length } ∧
      (run_scrape_job o m now st job_id user_id platform).1.users = st.users ∧
      (run_scrape_job o m now st job_id user_id platform).1.keywords = st.keywords ∧
      (run_scrape_job o m now st job_id user_id platform).1.settings = st.settings := by
  obtain ⟨new, hv, htv, hkp, hmem, hus, hkw, hjb, hset⟩ :=
    scrape_loop_spec o m now user (find_user_settings st user_id) user_id
      (active_keywords st user_id platform)
      (update_job st job_id (fun j => { j with status := .running }))
  have hrun : run_scrape_job o m now st job_id user_id platform =
      (update_job (scrape_loop o m now user (find_user_settings st user_id) user_id
          (update_job st job_id (fun j => { j with status := .running }))
          (active_keywords st user_id platform)).1 job_id
        (fun j => { j with
            status := .completed
            keywords_processed := j.keywords_processed +
              (scrape_loop o m now user (find_user_settings st user_id) user_id
                (update_job st job_id (fun j => { j with status := .running }))
                (active_keywords st user_id platform)).2.1
            videos_found := (scrape_loop o m now user (find_user_settings st user_id) user_id
                (update_job st job_id (fun j => { j with status := .running }))
                (active_keywords st user_id platform)).2.2 }),
       [.running, .completed]) := by
    simp only [run_scrape_job, hj, hu, active_keywords_update_job]
  rw [update_job_videos] at hv
  simp only [update_job_videos] at hmem
  rw [update_job_users] at hus
  rw [update_job_keywords] at hkw
  rw [update_job_settings] at hset
  have hjobs2 : (run_scrape_job o m now st job_id user_id platform).1.jobs =
      st.jobs.map (fun j => if j.id == job_id then
        { j with
            status := JobStatusEnum.completed
            keywords_processed := j.keywords_processed +
              ((active_keywords st user_id platform).filter
                (keyword_ok o (find_user_settings st user_id))).length
            videos_found := new.length }
        else j) := by
    rw [hrun, update_job_jobs, hjb, update_job_jobs,
      map_update_update (fun j : ScrapeJob => j.id == job_id)
        (fun j => { j with status := JobStatusEnum.running }) _ (fun a => rfl) st.jobs,
      hkp, htv]
  have hfind : find_job (run_scrape_job o m now st job_id user_id platform).1 job_id =
      some { job with
        status := JobStatusEnum.completed
        keywords_processed := job.keywords_processed +
          ((active_keywords st user_id platform).filter
            (keyword_ok o (find_user_settings st user_id))).length
        videos_found := new.length } := by
    have hfu := find?_map_update (fun j : ScrapeJob => j.id == job_id)
      (fun j => { j with
          status := JobStatusEnum.completed
          keywords_processed := j.keywords_processed +
            ((active_keywords st user_id platform).filter
              (keyword_ok o (find_user_settings st user_id))).length
          videos_found := new.length })
      (fun a => rfl) st.jobs
    have hj2 : st.jobs.find? (fun j => j.id == job_id) = some job := hj
    simp only [find_job]
    rw [hjobs2, hfu, hj2, Option.map_some']
  refine ⟨new, by rw [hrun], ?_, hmem, hjobs2, hfind, ?_, ?_, ?_⟩
  · rw [hrun, update_job_videos]
    exact hv
  · rw [hrun, update_job_users]
    exact hus
  · rw [hrun, update_job_keywords]
    exact hkw
  · rw [hrun, update_job_settings]
    exact hset

/-- The status writes of one run: nothing when the job or user row is
missing, RUNNING then COMPLETED otherwise. -/
theorem run_scrape_job_trace_shape (o : ScrapeOracle) (m : MirrorOracle) (now : String)
    (st : DBState) (job_id user_id : Nat) (platform : Option PlatformEnum) :
    (run_scrape_job o m now st job_id user_id platform).2 = [] ∨
    (run_scrape_job o m now st job_id user_id platform).2 = [.running, .completed] := by
  cases hj : find_job st job_id with
  | none => left; simp [run_scrape_job, hj]
  | some job =>
    cases hu : find_user st user_id with
    | none => left; simp [run_scrape_job, hj, hu]
    | some user => right; simp [run_scrape_job, hj, hu]

/-- A run never touches the users, keywords or settings tables, and
only the job row addressed by the run changes in the jobs table. -/
theorem run_scrape_job_tables (o : ScrapeOracle) (m : MirrorOracle) (now : String)
    (st : DBState) (job_id user_id : Nat) (platform : Option PlatformEnum) :
    (run_scrape_job o m now st job_id user_id platform).1.users = st.users ∧
    (run_scrape_job o m now st job_id user_id platform).1.keywords = st.keywords ∧
    (run_scrape_job o m now st job_id user_id platform).1.settings = st.settings := by
  cases hj : find_job st job_id with
  | none => simp [run_scrape_job, hj]
  | some job =>
    cases hu : find_user st user_id with
    | none => simp [run_scrape_job, hj, hu]
    | some user =>
      obtain ⟨new, _, _, _, _, _, h1, h2, h3⟩ :=
        run_scrape_job_spec o m now st job_id user_id platform job user hj hu
      exact ⟨h1, h2, h3⟩

/-! ## Claim C5 -/

/-- C5: a run that reaches COMPLETED has videos_found equal to the
number of Inserted outcomes of the whole run: the videos table is
extended by exactly the inserted rows and videos_found is their
count; every inserted row carries a URL that no stored video had when
the run began, so a candidate whose URL already exists is never
counted. -/
theorem C5_videos_found_equals_inserted (o : ScrapeOracle) (m : MirrorOracle)
    (now : String) (st : DBState) (job_id user_id : Nat)
    (platform : Option PlatformEnum) (job : ScrapeJob) (user : User)
    (hj : find_job st job_id = some job) (hu : find_user st user_id = some user) :
    ∃ (new : List Video) (job' : ScrapeJob),
      (run_scrape_job o m now st job_id user_id platform).1.videos = st.videos ++ new ∧
      find_job (run_scrape_job o m now st job_id user_id platform).1 job_id = some job' ∧
      job'.status = .completed ∧
      job'.videos_found = new.length ∧
      ∀ v ∈ new, ∀ w ∈ st.videos, w.video_url ≠ v.video_url := by
  obtain ⟨new, htr, hvid, hmem, hjobs, hfind, _, _, _⟩ :=
    run_scrape_job_spec o m now st job_id user_id platform job user hj hu
  exact ⟨new, _, hvid, hfind, rfl, rfl, fun v hv => (hmem v hv).2.2.2⟩

/-! ## Concrete run used by the C2 and C5 witnesses -/

/-- The witness user. -/
def c2_user : User := { id := 1, google_sheet_id := none }

/-- The witness settings: likes floor 1, weekly window. -/
def c2_settings : UserSettings :=
  { user_id := 1, min_likes := 1, min_views := 0, date_filter := "this_week" }

/-- An active TikTok keyword whose search succeeds. -/
def c2_keyword_ai : Keyword :=
  { id := 1, user_id := 1, keyword := "ai tools", platform := .tiktok
    is_active := true, results_per_run := 10 }

/-- An active TikTok keyword whose search raises. -/
def c2_keyword_crypto : Keyword :=
  { id := 2, user_id := 1, keyword := "crypto", platform := .tiktok
    is_active := true, results_per_run := 10 }

/-- The witness job, freshly admitted. -/
def c2_job : ScrapeJob :=
  { id := 1, user_id := 1, status := .pending, platform := none
    keywords_processed := 0, videos_found := 0, videos_transcribed := 0
    error_message := none }

/-- The witness store. -/
def c2_state : DBState :=
  { users := [c2_user], keywords := [c2_keyword_ai, c2_keyword_crypto]
    videos := [], jobs := [c2_job], settings := [c2_settings]
    next_video_id := 1, next_job_id := 2 }

/-- Three raw TikTok items: two above the likes floor, one below. -/
def c2_item1 : TikTokItem :=
  { webVideoUrl := some "https://www.tiktok.com/@u1/video/a", id := some "a"
    authorMeta_name := some "u1", authorMeta_nickName := none, text := none
    diggCount := 5, commentCount := 0, shareCount := 0, playCount := 0, createTime := 0 }

/-- Second raw item. -/
def c2_item2 : TikTokItem :=
  { webVideoUrl := some "https://www.tiktok.com/@u2/video/b", id := some "b"
    authorMeta_name := some "u2", authorMeta_nickName := none, text := none
    diggCount := 3, commentCount := 0, shareCount := 0, playCount := 0, createTime := 0 }

/-- Third raw item, below the likes floor. -/
def c2_item3 : TikTokItem :=
  { webVideoUrl := some "https://www.tiktok.com/@u3/video/c", id := some "c"
    authorMeta_name := some "u3", authorMeta_nickName := none, text := none
    diggCount := 0, commentCount := 0, shareCount := 0, playCount := 0, createTime := 0 }

/-- The witness provider: the ai-tools query returns three items, any
other query fails. -/
def c2_oracle : ScrapeOracle :=
  { tiktok_actor := fun ri =>
      if ri.searchQueries == ["ai tools"] then .ok [c2_item1, c2_item2, c2_item3]
      else .error "tiktok actor down"
    instagram_actor := fun _ => .error "instagram actor down" }

/-- A mirror whose every call succeeds and does nothing. -/
def noop_mirror : MirrorOracle :=
  { append_rows := fun _ _ _ => .ok ()
    find_cell := fun _ _ _ => .ok none
    update_range := fun _ _ _ _ => .ok () }

/-- Sanity check, the scenario of the specification: two active TikTok
keywords, the first returning three candidates of which two clear the
likes floor, the second raising. The job ends COMPLETED with
keywords_processed 1 and videos_found 2, and two pending videos are
stored. -/
example :
    find_job (run_scrape_job c2_oracle noop_mirror "2024-01-01 00:00" c2_state 1 1 none).1 1 =
      some { id := 1, user_id := 1, status := .completed, platform := none
             keywords_processed := 1, videos_found := 2, videos_transcribed := 0
             error_message := none } ∧
    ((run_scrape_job c2_oracle noop_mirror "2024-01-01 00:00" c2_state 1 1 none).1.videos.map
      (fun v => v.transcription_status)) = ["pending", "pending"] := by
  constructor <;> decide

/-- Witness for C5 at the concrete run: the two inserted rows are
counted. -/
theorem C5_witness :
    ∃ (new : List Video) (job' : ScrapeJob),
      (run_scrape_job c2_oracle noop_mirror "2024-01-01 00:00" c2_state 1 1 none).1.videos =
        c2_state.videos ++ new ∧
      find_job (run_scrape_job c2_oracle noop_mirror "2024-01-01 00:00" c2_state 1 1 none).1 1 =
        some job' ∧
      job'.status = .completed ∧
      job'.videos_found = new.length ∧
      ∀ v ∈ new, ∀ w ∈ c2_state.videos, w.video_url ≠ v.video_url :=
  C5_videos_found_equals_inserted c2_oracle noop_mirror "2024-01-01 00:00" c2_state 1 1 none
    c2_job c2_user rfl rfl

/-! ## Claim C2 -/

/-- C2: a failing search call for keyword K is confined to K: the run
still writes RUNNING then COMPLETED (never FAILED, there being no
orchestration failure in the serialized reliable-store model), K is not
among the keywords counted by keywords_processed, and the final
keywords_processed counts exactly the successful keywords of the run. -/
theorem C2_keyword_failure_isolated (o : ScrapeOracle) (m : MirrorOracle)
    (now : String) (st : DBState) (job_id user_id : Nat)
    (platform : Option PlatformEnum) (job : ScrapeJob) (user : User)
    (K : Keyword) (msg : String)
    (hj : find_job st job_id = some job) (hu : find_user st user_id = some user)
    (hK : K ∈ active_keywords st user_id platform)
    (hfail : scrape_by_platform o K.platform K.keyword K.results_per_run
      (settings_min_likes (find_user_settings st user_id))
      (settings_date_filter (find_user_settings st user_id)) = .error msg) :
    (run_scrape_job o m now st job_id user_id platform).2 = [.running, .completed] ∧
    keyword_ok o (find_user_settings st user_id) K = false ∧
    K ∉ (active_keywords st user_id platform).filter
      (keyword_ok o (find_user_settings st user_id)) ∧
    ∃ job', find_job (run_scrape_job o m now st job_id user_id platform).1 job_id =
        some job' ∧
      job'.status = .completed ∧
      job'.keywords_processed = job.keywords_processed +
        ((active_keywords st user_id platform).filter
          (keyword_ok o (find_user_settings st user_id))).length := by
  have hok : keyword_ok o (find_user_settings st user_id) K = false := by
    simp [keyword_ok, hfail]
  obtain ⟨new, htr, hvid, hmem, hjobs, hfind, _, _, _⟩ :=
    run_scrape_job_spec o m now st job_id user_id platform job user hj hu
  refine ⟨htr, hok, ?_, ⟨_, hfind, rfl, rfl⟩⟩
  intro hmemf
  have hmt := (List.mem_filter.mp hmemf).2
  rw [hok] at hmt
  exact Bool.false_ne_true hmt

/-- Witness for C2 at the concrete run: the crypto keyword fails, the
job still completes, and crypto is excluded from the processed count. -/
theorem C2_witness :
    (run_scrape_job c2_oracle noop_mirror "2024-01-01 00:00" c2_state 1 1 none).2 =
      [JobStatusEnum.running, JobStatusEnum.completed] ∧
    keyword_ok c2_oracle (find_user_settings c2_state 1) c2_keyword_crypto = false ∧
    c2_keyword_crypto ∉ (active_keywords c2_state 1 none).filter
      (keyword_ok c2_oracle (find_user_settings c2_state 1)) ∧
    ∃ job', find_job (run_scrape_job c2_oracle noop_mirror "2024-01-01 00:00" c2_state 1 1 none).1 1 =
        some job' ∧
      job'.status = .completed ∧
      job'.keywords_processed = c2_job.keywords_processed +
        ((active_keywords c2_state 1 none).filter
          (keyword_ok c2_oracle (find_user_settings c2_state 1))).length :=
  C2_keyword_failure_isolated c2_oracle noop_mirror "2024-01-01 00:00" c2_state 1 1 none
    c2_job c2_user c2_keyword_crypto "tiktok actor down" rfl rfl (by decide) rfl

/-! ## Claim C9 -/

/-- C9: the platform enum accepts youtube and keywords may carry it,
but the search dispatch raises an unsupported-platform error for every
youtube call, so in every run an active youtube keyword never counts
toward keywords_processed and never contributes a stored Video. The
keyword primary keys are assumed distinct, as in any relational store. -/
theorem C9_youtube_keyword_never_contributes (o : ScrapeOracle) (m : MirrorOracle)
    (now : String) (st : DBState) (job_id user_id : Nat)
    (platform : Option PlatformEnum) (job : ScrapeJob) (user : User) (K : Keyword)
    (hj : find_job st job_id = some job) (hu : find_user st user_id = some user)
    (hK : K ∈ active_keywords st user_id platform)
    (hyt : K.platform = .youtube)
    (hids : ((active_keywords st user_id platform).map (fun k => k.id)).Nodup) :
    (∀ (kw : String) (mr ml : Nat) (df : String),
      scrape_by_platform o .youtube kw mr ml df = .error "Unsupported platform: youtube") ∧
    keyword_ok o (find_user_settings st user_id) K = false ∧
    K ∉ (active_keywords st user_id platform).filter
      (keyword_ok o (find_user_settings st user_id)) ∧
    (run_scrape_job o m now st job_id user_id platform).2 = [.running, .completed] ∧
    ∃ (new : List Video) (job' : ScrapeJob),
      (run_scrape_job o m now st job_id user_id platform).1.videos = st.videos ++ new ∧
      (∀ v ∈ new, v.keyword_id ≠ K.id) ∧
      find_job (run_scrape_job o m now st job_id user_id platform).1 job_id = some job' ∧
      job'.status = .completed ∧
      job'.keywords_processed = job.keywords_processed +
        ((active_keywords st user_id platform).filter
          (keyword_ok o (find_user_settings st user_id))).length := by
  have hok : keyword_ok o (find_user_settings st user_id) K = false := by
    simp [keyword_ok, hyt, scrape_by_platform]
  obtain ⟨new, htr, hvid, hmem, hjobs, hfind, _, _, _⟩ :=
    run_scrape_job_spec o m now st job_id user_id platform job user hj hu
  refine ⟨fun kw mr ml df => rfl, hok, ?_, htr, new, _, hvid, ?_, hfind, rfl, rfl⟩
  · intro hmemf
    have hmt := (List.mem_filter.mp hmemf).2
    rw [hok] at hmt
    exact Bool.false_ne_true hmt
  · intro v hv hvk
    obtain ⟨⟨k', hk', hok', hid⟩, _⟩ := hmem v hv
    have hkK : k' = K :=
      List.inj_on_of_nodup_map hids hk' hK (by rw [← hid, hvk])
    rw [hkK, hok] at hok'
    exact Bool.false_ne_true hok'

/-- The youtube keyword of the C9 witness. -/
def c9_keyword : Keyword :=
  { id := 1, user_id := 1, keyword := "vlogs", platform := .youtube
    is_active := true, results_per_run := 10 }

/-- The admitted job of the C9 witness store. -/
def c9_job : ScrapeJob :=
  { id := 1, user_id := 1, status := .pending, platform := none
    keywords_processed := 0, videos_found := 0, videos_transcribed := 0
    error_message := none }

/-- The user of the C9 witness store. -/
def c9_user : User := { id := 1, google_sheet_id := none }

/-- The C9 witness store: one user, one active youtube keyword, one
admitted job, no settings row. -/
def c9_state : DBState :=
  { users := [c9_user], keywords := [c9_keyword]
    videos := [], jobs := [c9_job]
    settings := [], next_video_id := 1, next_job_id := 2 }

/-- Witness for C9 at the concrete store. -/
theorem C9_witness :
    keyword_ok c2_oracle (find_user_settings c9_state 1) c9_keyword = false ∧
    (run_scrape_job c2_oracle noop_mirror "2024-01-01 00:00" c9_state 1 1 none).2 =
      [JobStatusEnum.running, JobStatusEnum.completed] ∧
    ∃ (new : List Video) (job' : ScrapeJob),
      (run_scrape_job c2_oracle noop_mirror "2024-01-01 00:00" c9_state 1 1 none).1.videos =
        c9_state.videos ++ new ∧
      (∀ v ∈ new, v.keyword_id ≠ c9_keyword.id) ∧
      find_job (run_scrape_job c2_oracle noop_mirror "2024-01-01 00:00" c9_state 1 1 none).1 1 =
        some job' ∧
      job'.status = .completed ∧
      job'.keywords_processed = 0 +
        ((active_keywords c9_state 1 none).filter
          (keyword_ok c2_oracle (find_user_settings c9_state 1))).length := by
  have h := C9_youtube_keyword_never_contributes c2_oracle noop_mirror "2024-01-01 00:00"
    c9_state 1 1 none c9_job c9_user c9_keyword rfl rfl (by decide) rfl (by decide)
  exact ⟨h.2.1, h.2.2.2.1, h.2.2.2.2⟩

/-! ## Serialized system traces (C3, C4) -/

/-- One serialized operation of the system: the two trigger handlers
and the two background tasks of app/routers/jobs.py, each run-op
carrying the oracles its execution consumes. -/
inductive SysOp where
  | opStartJob : Nat → Option PlatformEnum → SysOp
  | opRunJob : ScrapeOracle → MirrorOracle → String → Nat → Nat → Option PlatformEnum → SysOp
  | opStartTrans : Nat → Nat → SysOp
  | opRunTrans : (String → Except String String) → MirrorOracle → Nat → SysOp

/-- Execute one operation; the second component is the list of job
status writes the operation performs, tagged by job id. Creating a
PENDING job is a row insert, not a status write to an existing row. -/
def apply_op (st : DBState) : SysOp → DBState × List (Nat × JobStatusEnum)
  | .opStartJob uid pf => ((start_scrape_job st uid pf).2, [])
  | .opRunJob o m now job_id uid pf =>
    ((run_scrape_job o m now st job_id uid pf).1,
     (run_scrape_job o m now st job_id uid pf).2.map (fun s => (job_id, s)))
  | .opStartTrans uid vid => ((start_transcription st uid vid).2.1, [])
  | .opRunTrans b m vid => (run_transcription_job b m st vid, [])

/-- Execute a serialized trace, accumulating the job status writes. -/
def exec_trace : DBState → List SysOp → DBState × List (Nat × JobStatusEnum)
  | st, [] => (st, [])
  | st, op :: ops =>
    ((exec_trace (apply_op st op).1 ops).1,
     (apply_op st op).2 ++ (exec_trace (apply_op st op).1 ops).2)

/-- Whether an operation is the background run of the given job. -/
def is_run_for (job_id : Nat) : SysOp → Bool
  | .opRunJob _ _ _ j _ _ => j == job_id
  | _ => false

/-- How many background runs a trace executes for a given job id. The
code schedules each job's run exactly once, at admission, so a
well-formed serialized trace runs a job id at most once. -/
def run_count (ops : List SysOp) (job_id : Nat) : Nat :=
  ops.countP (is_run_for job_id)

/-- Filtering tagged writes keeps all of them or none, by tag. -/
theorem filter_tag_map (j' j : Nat) (l : List JobStatusEnum) :
    ((l.map (fun s => (j', s))).filter (fun w => w.1 == j)) =
      if j' == j then l.map (fun s => (j', s)) else [] := by
  induction l with
  | nil => simp
  | cons s l ih =>
    cases h : j' == j with
    | true => simp [List.filter_cons, h, ih]
    | false => simp [List.filter_cons, h, ih]

/-- A trace that runs a job id zero times writes nothing to it. -/
theorem exec_trace_no_writes (j : Nat) :
    ∀ (ops : List SysOp) (st : DBState), run_count ops j = 0 →
      ((exec_trace st ops).2.filter (fun w => w.1 == j)) = [] := by
  intro ops
  induction ops with
  | nil => intro st _; rfl
  | cons op rest ih =>
    intro st h
    rw [run_count, List.countP_cons] at h
    have h1 : run_count rest j = 0 := by
      unfold run_count
      omega
    have hweq : (exec_trace st (op :: rest)).2 =
        (apply_op st op).2 ++ (exec_trace (apply_op st op).1 rest).2 := rfl
    rw [hweq, List.filter_append, ih (apply_op st op).1 h1, List.append_nil]
    cases op with
    | opStartJob uid pf => rfl
    | opStartTrans uid vid => rfl
    | opRunTrans b m vid => rfl
    | opRunJob o m now j' uid pf =>
      have hjj : (j' == j) = false := by
        cases hjc : j' == j with
        | false => rfl
        | true =>
          rw [show is_run_for j (SysOp.opRunJob o m now j' uid pf) = true from hjc] at h
          simp at h
      show ((run_scrape_job o m now st j' uid pf).2.map
        (fun s => (j', s))).filter (fun w => w.1 == j) = []
      rw [filter_tag_map, if_neg (by simp [hjj])]

/-- A trace that runs a job at most once writes to it either nothing or
exactly RUNNING followed by COMPLETED. -/
theorem exec_trace_job_writes (j : Nat) :
    ∀ (ops : List SysOp) (st : DBState), run_count ops j ≤ 1 →
      ((exec_trace st ops).2.filter (fun w => w.1 == j)).map (fun w => w.2) = [] ∨
      ((exec_trace st ops).2.filter (fun w => w.1 == j)).map (fun w => w.2) =
        [.running, .completed] := by
  intro ops
  induction ops with
  | nil => intro st _; left; rfl
  | cons op rest ih =>
    intro st h
    rw [run_count, List.countP_cons] at h
    have hweq : (exec_trace st (op :: rest)).2 =
        (apply_op st op).2 ++ (exec_trace (apply_op st op).1 rest).2 := rfl
    rw [hweq, List.filter_append, List.map_append]
    cases op with
    | opStartJob uid pf =>
      have hr : run_count rest j ≤ 1 := by unfold run_count; omega
      have hhead : (apply_op st (.opStartJob uid pf)).2.filter
          (fun w => w.1 == j) = [] := rfl
      rw [hhead]
      simp only [List.map_nil, List.nil_append]
      exact ih _ hr
    | opStartTrans uid vid =>
      have hr : run_count rest j ≤ 1 := by unfold run_count; omega
      have hhead : (apply_op st (.opStartTrans uid vid)).2.filter
          (fun w => w.1 == j) = [] := rfl
      rw [hhead]
      simp only [List.map_nil, List.nil_append]
      exact ih _ hr
    | opRunTrans b m vid =>
      have hr : run_count rest j ≤ 1 := by unfold run_count; omega
      have hhead : (apply_op st (.opRunTrans b m vid)).2.filter
          (fun w => w.1 == j) = [] := rfl
      rw [hhead]
      simp only [List.map_nil, List.nil_append]
      exact ih _ hr
    | opRunJob o m now j' uid pf =>
      cases hjj : j' == j with
      | false =>
        have hr : run_count rest j ≤ 1 := by unfold run_count; omega
        have hhead : ((apply_op st (.opRunJob o m now j' uid pf)).2.filter
            (fun w => w.1 == j)) = [] := by
          show ((run_scrape_job o m now st j' uid pf).2.map
            (fun s => (j', s))).filter (fun w => w.1 == j) = []
          rw [filter_tag_map, if_neg (by simp [hjj])]
        rw [hhead]
        simp only [List.map_nil, List.nil_append]
        exact ih _ hr
      | true =>
        have hj' : j' = j := by simpa using hjj
        subst hj'
        have h2 : rest.countP (is_run_for j') + 1 ≤ 1 := by
          rw [show is_run_for j' (SysOp.opRunJob o m now j' uid pf) = true from hjj] at h
          simpa using h
        have hr0 : run_count rest j' = 0 := by
          unfold run_count
          omega
        rw [exec_trace_no_writes j' rest _ hr0]
        have hhead : ((apply_op st (.opRunJob o m now j' uid pf)).2.filter
            (fun w => w.1 == j')) =
            (run_scrape_job o m now st j' uid pf).2.map (fun s => (j', s)) := by
          show ((run_scrape_job o m now st j' uid pf).2.map
            (fun s => (j', s))).filter (fun w => w.1 == j') = _
          rw [filter_tag_map, if_pos hjj]
        rw [hhead]
        rcases run_scrape_job_trace_shape o m now st j' uid pf with hsh | hsh
        · left
          rw [hsh]
          rfl
        · right
          rw [hsh]
          rfl

/-! ## Claim C3 -/

/-- C3: in every serialized trace that runs each job's background task
at most once (the code schedules it exactly once, at admission), the
status writes a job receives are either none or exactly RUNNING
followed by COMPLETED: a terminal status is written at most once, no
write ever follows a terminal write (so no step leaves COMPLETED or
FAILED), and every job is created in PENDING. The FAILED terminal is
reachable in the source only through a store or control failure, which
the reliable-store model excludes, so the model's runs always end
COMPLETED, one of the two claimed terminals. -/
theorem C3_job_lifecycle_terminal_once (st : DBState) (ops : List SysOp) (j : Nat)
    (h : run_count ops j ≤ 1) :
    (((exec_trace st ops).2.filter (fun w => w.1 == j)).map (fun w => w.2) = [] ∨
     ((exec_trace st ops).2.filter (fun w => w.1 == j)).map (fun w => w.2) =
       [.running, .completed]) ∧
    (∀ (l1 l2 : List JobStatusEnum) (s : JobStatusEnum),
      ((exec_trace st ops).2.filter (fun w => w.1 == j)).map (fun w => w.2) =
        l1 ++ s :: l2 →
      (s = .completed ∨ s = .failed) → l2 = []) ∧
    (∀ (uid : Nat) (pf : Option PlatformEnum),
      (mk_pending_job st uid pf).status = .pending) := by
  have hd := exec_trace_job_writes j ops st h
  refine ⟨hd, ?_, fun uid pf => rfl⟩
  intro l1 l2 s heq hterm
  rcases hd with h0 | h0
  · rw [h0] at heq
    cases l1 with
    | nil => simp at heq
    | cons a l1' => simp at heq
  · rw [h0] at heq
    cases l1 with
    | nil =>
      simp only [List.nil_append] at heq
      injection heq with hA hB
      rcases hterm with ht | ht
      · rw [ht] at hA
        exact absurd hA (by decide)
      · rw [ht] at hA
        exact absurd hA (by decide)
    | cons a l1' =>
      injection heq with hA hB
      cases l1' with
      | nil =>
        injection hB with hC hD
        exact hD.symm
      | cons b l1'' =>
        injection hB with hC hD
        exact absurd hD.symm (by simp)

/-- Witness for C3 at the concrete run: the single scheduled run of job
1 writes RUNNING then COMPLETED and nothing after. -/
theorem C3_witness :
    run_count [SysOp.opRunJob c2_oracle noop_mirror "2024-01-01 00:00" 1 1 none] 1 ≤ 1 ∧
    ((((exec_trace c2_state
        [SysOp.opRunJob c2_oracle noop_mirror "2024-01-01 00:00" 1 1 none]).2.filter
        (fun w => w.1 == 1)).map (fun w => w.2) = [] ∨
      ((exec_trace c2_state
        [SysOp.opRunJob c2_oracle noop_mirror "2024-01-01 00:00" 1 1 none]).2.filter
        (fun w => w.1 == 1)).map (fun w => w.2) = [.running, .completed]) ∧
    (∀ (l1 l2 : List JobStatusEnum) (s : JobStatusEnum),
      ((exec_trace c2_state
        [SysOp.opRunJob c2_oracle noop_mirror "2024-01-01 00:00" 1 1 none]).2.filter
        (fun w => w.1 == 1)).map (fun w => w.2) = l1 ++ s :: l2 →
      (s = .completed ∨ s = .failed) → l2 = []) ∧
    (∀ (uid : Nat) (pf : Option PlatformEnum),
      (mk_pending_job c2_state uid pf).status = .pending)) :=
  ⟨by decide,
   C3_job_lifecycle_terminal_once c2_state
     [SysOp.opRunJob c2_oracle noop_mirror "2024-01-01 00:00" 1 1 none] 1 (by decide)⟩

/-! ## Claim C4 -/

/-- The invariant of the claim: no user has two jobs in RUNNING status
at once. -/
def at_most_one_running (st : DBState) : Prop :=
  ∀ j ∈ st.jobs,
    st.jobs.countP (fun j2 => j2.user_id == j.user_id &&
      j2.status == JobStatusEnum.running) ≤ 1

/-- Appending a row the predicate rejects leaves a count unchanged. -/
theorem countP_append_single {α : Type} (l : List α) (x : α) (p : α → Bool)
    (hx : p x = false) : (l ++ [x]).countP p = l.countP p := by
  rw [List.countP_append]
  simp [List.countP_cons, hx]

/-- The invariant only reads the jobs table. -/
theorem at_most_one_running_congr (st st2 : DBState) (h : st.jobs = st2.jobs)
    (h2 : at_most_one_running st) : at_most_one_running st2 := by
  intro j hj
  rw [← h] at hj ⊢
  exact h2 j hj

/-- The admission handler preserves the invariant: a rejection changes
nothing and an admission only adds a PENDING job. -/
theorem start_scrape_job_preserves_amor (st : DBState) (uid : Nat)
    (pf : Option PlatformEnum) (h : at_most_one_running st) :
    at_most_one_running (start_scrape_job st uid pf).2 := by
  cases hf : st.jobs.find? (fun j => j.user_id == uid &&
      j.status == JobStatusEnum.running) with
  | some jr =>
    have hstate : (start_scrape_job st uid pf).2 = st := by
      unfold start_scrape_job
      rw [hf]
    rw [hstate]
    exact h
  | none =>
    have hstate : (start_scrape_job st uid pf).2 =
        { st with
            jobs := st.jobs ++ [mk_pending_job st uid pf]
            next_job_id := st.next_job_id + 1 } := by
      unfold start_scrape_job
      rw [hf]
    rw [hstate]
    intro j hjm
    have hj2 : j ∈ st.jobs ++ [mk_pending_job st uid pf] := hjm
    have hx : ∀ u : Nat, ((mk_pending_job st uid pf).user_id == u &&
        (mk_pending_job st uid pf).status == JobStatusEnum.running) = false := by
      intro u
      simp [mk_pending_job]
    show (st.jobs ++ [mk_pending_job st uid pf]).countP
      (fun j2 => j2.user_id == j.user_id && j2.status == JobStatusEnum.running) ≤ 1
    rcases List.mem_append.mp hj2 with hj1 | hj1
    · rw [countP_append_single st.jobs _ _ (hx _)]
      exact h j hj1
    · have hjx : j = mk_pending_job st uid pf := by simpa using hj1
      subst hjx
      rw [countP_append_single st.jobs _ _ (hx _)]
      rcases Nat.eq_zero_or_pos (st.jobs.countP (fun j2 =>
          j2.user_id == (mk_pending_job st uid pf).user_id &&
          j2.status == JobStatusEnum.running)) with hz | hp
      · omega
      · obtain ⟨jr, hjr, hpr⟩ := List.countP_pos_iff.mp hp
        have hru : jr.user_id = (mk_pending_job st uid pf).user_id := by
          have hpr2 : (jr.user_id == (mk_pending_job st uid pf).user_id) = true ∧
              (jr.status == JobStatusEnum.running) = true := by
            rw [Bool.and_eq_true] at hpr
            exact hpr
          simpa using hpr2.1
        have hh := h jr hjr
        rw [hru] at hh
        exact hh

/-- A guarded row rewrite that keeps user ids and never produces a
RUNNING status out of nowhere preserves the invariant. -/
theorem amor_map_update (st : DBState) (job_id : Nat) (T : ScrapeJob → ScrapeJob)
    (st2 : DBState)
    (hjobs : st2.jobs = st.jobs.map (fun x => if x.id == job_id then T x else x))
    (hTid : ∀ x, (T x).user_id = x.user_id)
    (hTrun : ∀ x, ((T x).status == JobStatusEnum.running) = true →
      (x.status == JobStatusEnum.running) = true)
    (h : at_most_one_running st) :
    at_most_one_running st2 := by
  intro j hj
  rw [hjobs] at hj ⊢
  obtain ⟨j0, hj0, rfl⟩ := List.mem_map.mp hj
  have hguid : ∀ x : ScrapeJob,
      ((if x.id == job_id then T x else x)).user_id = x.user_id := by
    intro x
    cases hid : x.id == job_id with
    | true => simp [hid, hTid]
    | false => simp [hid]
  have hle := countP_map_le (fun x : ScrapeJob => if x.id == job_id then T x else x)
    (fun j2 => j2.user_id == (if j0.id == job_id then T j0 else j0).user_id &&
      j2.status == JobStatusEnum.running)
    (fun j2 => j2.user_id == j0.user_id && j2.status == JobStatusEnum.running)
    (by
      intro a ha
      rw [Bool.and_eq_true] at ha
      obtain ⟨ha1, ha2⟩ := ha
      have ha1b : ((if a.id == job_id then T a else a).user_id ==
          (if j0.id == job_id then T j0 else j0).user_id) = true := ha1
      have ha2b : ((if a.id == job_id then T a else a).status ==
          JobStatusEnum.running) = true := ha2
      rw [Bool.and_eq_true]
      constructor
      · rw [hguid a, hguid j0] at ha1b
        exact ha1b
      · cases hid : a.id == job_id with
        | false =>
          rw [if_neg (by simp [hid])] at ha2b
          exact ha2b
        | true =>
          rw [if_pos hid] at ha2b
          exact hTrun a ha2b)
    st.jobs
  exact le_trans hle (h j0 hj0)

/-- One background run preserves the invariant: its only job-row writes
leave the addressed job COMPLETED. -/
theorem run_scrape_job_preserves_amor (o : ScrapeOracle) (m : MirrorOracle)
    (now : String) (st : DBState) (job_id uid : Nat) (pf : Option PlatformEnum)
    (h : at_most_one_running st) :
    at_most_one_running (run_scrape_job o m now st job_id uid pf).1 := by
  cases hj : find_job st job_id with
  | none =>
    have hstate : (run_scrape_job o m now st job_id uid pf).1 = st := by
      simp [run_scrape_job, hj]
    rw [hstate]
    exact h
  | some job =>
    cases hu : find_user st uid with
    | none =>
      have hstate : (run_scrape_job o m now st job_id uid pf).1 = st := by
        simp [run_scrape_job, hj, hu]
      rw [hstate]
      exact h
    | some user =>
      obtain ⟨new, _, _, _, hjobs, _, _, _, _⟩ :=
        run_scrape_job_spec o m now st job_id uid pf job user hj hu
      refine amor_map_update st job_id _ _ hjobs (fun x => rfl) ?_ h
      intro x hx
      exact absurd hx (by simp)

/-- The transcription trigger handler never writes the store. -/
theorem start_transcription_state (st : DBState) (uid vid : Nat) :
    (start_transcription st uid vid).2.1 = st := by
  unfold start_transcription
  cases hf : st.videos.find? (fun v => v.id == vid && v.user_id == uid) with
  | none => rfl
  | some v =>
    show (if v.transcription_status == "processing"
      then ((TrStartResult.alreadyInProgress, st, ([] : List Nat)) :
        TrStartResult × DBState × List Nat)
      else (TrStartResult.accepted, st, [v.id])).2.1 = st
    split <;> rfl

/-- A transcription run never touches the jobs table. -/
theorem run_transcription_job_jobs (b : String → Except String String)
    (m : MirrorOracle) (st : DBState) (vid : Nat) :
    (run_transcription_job b m st vid).jobs = st.jobs := by
  cases hv : find_video st vid with
  | none => simp [run_transcription_job, hv]
  | some v =>
    cases hb : b v.video_url with
    | ok t => simp [run_transcription_job, hv, hb, update_video]
    | error e => simp [run_transcription_job, hv, hb, update_video]

/-- Every serialized operation preserves the invariant. -/
theorem apply_op_preserves_amor (st : DBState) (op : SysOp)
    (h : at_most_one_running st) : at_most_one_running (apply_op st op).1 := by
  cases op with
  | opStartJob uid pf => exact start_scrape_job_preserves_amor st uid pf h
  | opRunJob o m now job_id uid pf =>
    exact run_scrape_job_preserves_amor o m now st job_id uid pf h
  | opStartTrans uid vid =>
    have hs := start_transcription_state st uid vid
    show at_most_one_running (start_transcription st uid vid).2.1
    rw [hs]
    exact h
  | opRunTrans b m vid =>
    exact at_most_one_running_congr st _ (run_transcription_job_jobs b m st vid).symm h

/-- Every serialized trace preserves the invariant. -/
theorem exec_trace_preserves_amor :
    ∀ (ops : List SysOp) (st : DBState), at_most_one_running st →
      at_most_one_running (exec_trace st ops).1 := by
  intro ops
  induction ops with
  | nil => intro st h; exact h
  | cons op rest ih =>
    intro st h
    exact ih _ (apply_op_preserves_amor st op h)

/-- C4: the job-admission handler rejects with AlreadyRunning exactly
when the user already has a job in RUNNING status, and a rejection
changes nothing; otherwise it creates and returns a new PENDING job.
In the serialized model every trace of handler calls and background
runs preserves the at-most-one-RUNNING-job-per-user invariant. -/
theorem C4_admission_guard (st : DBState) (uid : Nat) (pf : Option PlatformEnum) :
    ((start_scrape_job st uid pf).1 = .alreadyRunningRejected ↔
      ∃ j ∈ st.jobs, j.user_id = uid ∧ j.status = JobStatusEnum.running) ∧
    ((start_scrape_job st uid pf).1 = .alreadyRunningRejected →
      (start_scrape_job st uid pf).2 = st) ∧
    ((∀ j ∈ st.jobs, ¬(j.user_id = uid ∧ j.status = JobStatusEnum.running)) →
      (start_scrape_job st uid pf).2 =
        { st with
            jobs := st.jobs ++ [mk_pending_job st uid pf]
            next_job_id := st.next_job_id + 1 } ∧
      (mk_pending_job st uid pf).status = JobStatusEnum.pending) ∧
    (∀ ops : List SysOp, at_most_one_running st →
      at_most_one_running (exec_trace st ops).1) := by
  cases hf : st.jobs.find? (fun j => j.user_id == uid &&
      j.status == JobStatusEnum.running) with
  | some jr =>
    have hres : (start_scrape_job st uid pf).1 = .alreadyRunningRejected := by
      unfold start_scrape_job
      rw [hf]
    have hstate : (start_scrape_job st uid pf).2 = st := by
      unfold start_scrape_job
      rw [hf]
    have hprops : jr.user_id = uid ∧ jr.status = JobStatusEnum.running := by
      have hp := List.find?_some hf
      have hp2 : (jr.user_id == uid) = true ∧
          (jr.status == JobStatusEnum.running) = true := by
        rw [Bool.and_eq_true] at hp
        exact hp
      exact ⟨by simpa using hp2.1, by simpa using hp2.2⟩
    refine ⟨⟨fun _ => ⟨jr, List.mem_of_find?_eq_some hf, hprops⟩, fun _ => hres⟩,
      fun _ => hstate, ?_, fun ops => exec_trace_preserves_amor ops st⟩
    intro hnone
    exact absurd hprops (hnone jr (List.mem_of_find?_eq_some hf))
  | none =>
    have hres : (start_scrape_job st uid pf).1 =
        .started (mk_pending_job st uid pf).id := by
      unfold start_scrape_job
      rw [hf]
    have hstate : (start_scrape_job st uid pf).2 =
        { st with
            jobs := st.jobs ++ [mk_pending_job st uid pf]
            next_job_id := st.next_job_id + 1 } := by
      unfold start_scrape_job
      rw [hf]
    refine ⟨⟨?_, ?_⟩, ?_, fun _ => ⟨hstate, rfl⟩,
      fun ops => exec_trace_preserves_amor ops st⟩
    · intro hcontr
      rw [hres] at hcontr
      exact absurd hcontr (by simp)
    · intro hex
      obtain ⟨j, hj, hju, hjs⟩ := hex
      have hn := List.find?_eq_none.mp hf j hj
      exact absurd (by simp [hju, hjs] : (j.user_id == uid &&
        j.status == JobStatusEnum.running) = true) (by simpa using hn)
    · intro hcontr
      rw [hres] at hcontr
      exact absurd hcontr (by simp)

/-- A job already RUNNING for user 1, for the C4 witness. -/
def c4_running_job : ScrapeJob :=
  { id := 1, user_id := 1, status := .running, platform := none
    keywords_processed := 0, videos_found := 0, videos_transcribed := 0
    error_message := none }

/-- Concrete store for the C4 witness. -/
def c4_state : DBState :=
  { users := [{ id := 1, google_sheet_id := none }], keywords := []
    videos := [], jobs := [c4_running_job], settings := []
    next_video_id := 1, next_job_id := 2 }

/-- Witness for C4 at a concrete store with a RUNNING job: the
admission guard characterizes rejection, the invariant holds and is
preserved across a trace of two admissions. -/
theorem C4_witness :
    ((start_scrape_job c4_state 1 none).1 = .alreadyRunningRejected ↔
      ∃ j ∈ c4_state.jobs, j.user_id = 1 ∧ j.status = JobStatusEnum.running) ∧
    at_most_one_running c4_state ∧
    at_most_one_running (exec_trace c4_state
      [SysOp.opStartJob 1 none, SysOp.opStartJob 2 none]).1 :=
  ⟨(C4_admission_guard c4_state 1 none).1,
   by unfold at_most_one_running; decide,
   (C4_admission_guard c4_state 1 none).2.2.2
     [SysOp.opStartJob 1 none, SysOp.opStartJob 2 none]
     (by unfold at_most_one_running; decide)⟩
